import Mathlib

/-!
Verification development for the SwiftMove backend (FastAPI + MongoDB).

The Python routes are embedded shallowly: MongoDB collections become Lean
lists of structures, each route handler becomes a pure function from the
database state (plus injected identifiers and the current time) to a result
together with the new state, and Python strings/regex scans become functions
over `List Char`.  Monetary amounts are modelled as rationals, timestamps as
integers (seconds).
-/

namespace SwiftMove

/-! ## String utilities mirroring the Python string operations -/

/-- Python whitespace set used by `str.strip()`, `str.split()` and `\s`. -/
def isSpc (c : Char) : Bool :=
  c == ' ' || c == '\t' || c == '\n' || c == '\r' || c == '\x0b' || c == '\x0c'

/-- Word character for the regex `\b` boundary (`[a-zA-Z0-9_]`). -/
def isWordChar (c : Char) : Bool := c.isAlphanum || c == '_'

/-- Lowercase a character sequence (Python `str.lower()`, ASCII range). -/
def lcLower (cs : List Char) : List Char := cs.map Char.toLower

/-- Does `pat` stand at the head of `cs`? -/
def listLeads : List Char → List Char → Bool
  | [], _ => true
  | _ :: _, [] => false
  | p :: ps, c :: cs => p == c && listLeads ps cs

/-- Leftmost index at which `pat` occurs in `cs` (Python `str.find`). -/
def findSub : List Char → List Char → Option Nat
  | cs, pat =>
    if listLeads pat cs then some 0
    else match cs with
      | [] => none
      | _ :: cs' => (findSub cs' pat).map (· + 1)

/-- Substring containment (Python `pat in s`). -/
def containsSub (cs pat : List Char) : Bool := (findSub cs pat).isSome

/-- String-level substring containment. -/
def containsStr (s pat : String) : Bool := containsSub s.toList pat.toList

/-- Python `s.split(pat)` (left-to-right, non-overlapping); `fuel` bounds the
recursion and is instantiated with the length of the input. -/
def splitSubAux (pat : List Char) : Nat → List Char → List (List Char)
  | 0, cs => [cs]
  | Nat.succ fuel, cs =>
    match findSub cs pat with
    | none => [cs]
    | some i =>
      if pat.isEmpty then [cs]
      else cs.take i :: splitSubAux pat fuel (cs.drop (i + pat.length))

/-- Python `s.split(pat)`. -/
def splitSub (cs pat : List Char) : List (List Char) :=
  splitSubAux pat (cs.length + 1) cs

/-- Python `s.split(pat)[-1]`: the piece after the last (non-overlapping,
left-to-right) occurrence of `pat`; the whole string when `pat` is absent. -/
def splitLastAfter (cs pat : List Char) : List Char :=
  ((splitSub cs pat).getLast?).getD cs

/-- Strip characters drawn from `bad` at both ends (Python `str.strip(chars)`). -/
def stripChars (bad : List Char) (cs : List Char) : List Char :=
  ((cs.dropWhile (bad.contains ·)).reverse.dropWhile (bad.contains ·)).reverse

/-- Python `str.strip()` (whitespace at both ends). -/
def stripWs (cs : List Char) : List Char :=
  ((cs.dropWhile isSpc).reverse.dropWhile isSpc).reverse

/-- Python `str.split()` (split on whitespace runs, dropping empty pieces).
The accumulator `cur` is the current word reversed. -/
def splitWsGo (cur : List Char) : List Char → List (List Char)
  | [] => if cur.isEmpty then [] else [cur.reverse]
  | c :: cs =>
    if isSpc c then
      if cur.isEmpty then splitWsGo [] cs else cur.reverse :: splitWsGo [] cs
    else splitWsGo (c :: cur) cs

/-- Python `str.split()`. -/
def splitWs (cs : List Char) : List (List Char) := splitWsGo [] cs

/-- Python `sep.join(pieces)`. -/
def joinSep (sep : List Char) : List (List Char) → List Char
  | [] => []
  | [w] => w
  | w :: ws => w ++ sep ++ joinSep sep ws

/-- Python `str.title()` for ASCII text: the first letter after a non-letter
is uppercased, every other letter lowercased. -/
def titleCaseGo (prevAlpha : Bool) : List Char → List Char
  | [] => []
  | c :: cs =>
    if c.isAlpha then
      (if prevAlpha then c.toLower else c.toUpper) :: titleCaseGo true cs
    else c :: titleCaseGo false cs

/-- Python `str.title()`. -/
def titleCase (cs : List Char) : List Char := titleCaseGo false cs

/-- Python `s[-n:]`: the last `n` characters (the whole string when shorter). -/
def lastN (n : Nat) (cs : List Char) : List Char := cs.drop (cs.length - n)

/-- Python `str.isdigit()` restricted to ASCII: nonempty and all digits. -/
def isDigitStr (cs : List Char) : Bool := !cs.isEmpty && cs.all Char.isDigit

/-- Python `str.isalpha()` restricted to ASCII: nonempty and all letters. -/
def isAlphaStr (cs : List Char) : Bool := !cs.isEmpty && cs.all Char.isAlpha

/-! ## A small backtracking regex engine

Each Python regex used by the routes is transcribed into an explicit pattern
AST; `Rx.allMatches` enumerates the candidate continuations of a match in the
priority order of Python's backtracking engine (greedy quantifiers first), so
the head of the list is exactly the match `re.search` commits to at a given
start position. -/

inductive Rx : Type where
  /-- One character from a class, e.g. `[0-9]`. -/
  | cls (p : Char → Bool)
  /-- A literal string. -/
  | lit (s : List Char)
  /-- Concatenation. -/
  | seq (a b : Rx)
  /-- Alternation `a|b`: `a` is tried first. -/
  | alt (a b : Rx)
  /-- Optional `a?`, greedy. -/
  | opt (a : Rx)
  /-- Bounded/unbounded repetition of a character class,
  e.g. `\d{1,2}` or `\s*`; greedy, `hi = none` means unbounded. -/
  | rep (p : Char → Bool) (lo : Nat) (hi : Option Nat)
  /-- The word boundary `\b`. -/
  | bnd
  /-- Capture group 1. -/
  | grp (a : Rx)

/-- Convenience: the pattern of a literal string. -/
def Rx.str (s : String) : Rx := Rx.lit s.toList

/-- Fold a list of alternatives left-to-right. -/
def altList : List Rx → Rx
  | [] => Rx.cls (fun _ => false)
  | [r] => r
  | r :: rs => Rx.alt r (altList rs)

/-- Is the position between `prev` and the head of the remaining input a
word boundary (`\b`)? -/
def wordBoundary (prev : Option Char) (cs : List Char) : Bool :=
  let l := match prev with | some c => isWordChar c | none => false
  let r := match cs.head? with | some c => isWordChar c | none => false
  l != r

/-- A matcher state: the character just before the current position (for
`\b`), the remaining input, and the group-1 capture collected so far. -/
abbrev RxState := Option Char × List Char × Option (List Char)

/-- The last character consumed when `n` characters of `cs` are eaten,
falling back to `prev` when `n = 0`. -/
def prevAfter (prev : Option Char) (cs : List Char) (n : Nat) : Option Char :=
  if n = 0 then prev else ((cs.take n).getLast?).orElse (fun _ => prev)

/-- Descending list `[hi, hi-1, ..., lo]` (empty when `hi < lo`). -/
def descRange (lo hi : Nat) : List Nat :=
  (List.range (hi + 1 - lo)).map (fun k => hi - k)

/-- All candidate continuations of matching `r` at the current state, in
Python's backtracking priority order (greedy first). -/
def Rx.allMatches : Rx → Option Char → List Char → Option (List Char) → List RxState
  | .cls p, _, cs, cap =>
    match cs with
    | [] => []
    | c :: cs' => if p c then [(some c, cs', cap)] else []
  | .lit s, prev, cs, cap =>
    if listLeads s cs then [((s.getLast?).orElse (fun _ => prev), cs.drop s.length, cap)]
    else []
  | .seq a b, prev, cs, cap =>
    (Rx.allMatches a prev cs cap).flatMap fun st => Rx.allMatches b st.1 st.2.1 st.2.2
  | .alt a b, prev, cs, cap =>
    Rx.allMatches a prev cs cap ++ Rx.allMatches b prev cs cap
  | .opt a, prev, cs, cap =>
    Rx.allMatches a prev cs cap ++ [(prev, cs, cap)]
  | .rep p lo hi, prev, cs, cap =>
    let run := (cs.takeWhile p).length
    let top := match hi with | some h => min h run | none => run
    (descRange lo top).map fun n => (prevAfter prev cs n, cs.drop n, cap)
  | .bnd, prev, cs, cap =>
    if wordBoundary prev cs then [(prev, cs, cap)] else []
  | .grp a, prev, cs, cap =>
    (Rx.allMatches a prev cs cap).map fun st =>
      (st.1, st.2.1, some (cs.take (cs.length - st.2.1.length)))

/-- The match `re` commits to at the current position: the full extent
(group 0) and the group-1 capture, or `none` when the pattern does not
match here. -/
def rxMatchAt (r : Rx) (prev : Option Char) (cs : List Char) :
    Option (List Char × Option (List Char)) :=
  match (Rx.allMatches r prev cs none).head? with
  | some st => some (cs.take (cs.length - st.2.1.length), st.2.2)
  | none => none

/-- Scan start positions left to right (Python `re.search`): the leftmost
position with a match wins; returns (group 0, group 1). -/
def rxSearchGo (r : Rx) (prev : Option Char) :
    List Char → Option (List Char × Option (List Char))
  | [] => rxMatchAt r prev []
  | c :: cs' =>
    match rxMatchAt r prev (c :: cs') with
    | some res => some res
    | none => rxSearchGo r (some c) cs'

/-- Python `re.search(pattern, s)`, returning (group 0, group 1). -/
def rxSearch (r : Rx) (cs : List Char) : Option (List Char × Option (List Char)) :=
  rxSearchGo r none cs

/-! ## The concrete regexes of `routes/chat.py` -/

/-- The class `[a-zA-Z0-9._%+-]`. -/
def emailLocalChar (c : Char) : Bool :=
  c.isAlphanum || c == '.' || c == '_' || c == '%' || c == '+' || c == '-'

/-- The class `[a-zA-Z0-9.-]`. -/
def emailDomChar (c : Char) : Bool := c.isAlphanum || c == '.' || c == '-'

/-- The email pattern `[a-zA-Z0-9._%+-]+@[a-zA-Z0-9.-]+\.[a-zA-Z]{2,}`. -/
def emailRx : Rx :=
  .seq (.rep emailLocalChar 1 none)
    (.seq (.str "@") (.seq (.rep emailDomChar 1 none)
      (.seq (.str ".") (.rep Char.isAlpha 2 none))))

/-- The class `[-\s\.]`. -/
def phoneSep (c : Char) : Bool := c == '-' || isSpc c || c == '.'

/-- The phone pattern `[\+]?[(]?[0-9]{3}[)]?[-\s\.]?[0-9]{3}[-\s\.]?[0-9]{4,6}`. -/
def phoneRx : Rx :=
  .seq (.opt (.cls (· == '+'))) (.seq (.opt (.cls (· == '(')))
    (.seq (.rep Char.isDigit 3 (some 3)) (.seq (.opt (.cls (· == ')')))
      (.seq (.opt (.cls phoneSep)) (.seq (.rep Char.isDigit 3 (some 3))
        (.seq (.opt (.cls phoneSep)) (.rep Char.isDigit 4 (some 6))))))))

/-- The class of a slash or a dash. -/
def slashDash (c : Char) : Bool := c == '/' || c == '-'

/-- Date pattern: `\b`, one or two digits, slash-or-dash, one or two digits,
slash-or-dash, two to four digits, `\b` (the first `date_patterns` entry). -/
def dateRx1 : Rx :=
  .seq .bnd (.seq (.grp (.seq (.rep Char.isDigit 1 (some 2)) (.seq (.cls slashDash)
    (.seq (.rep Char.isDigit 1 (some 2)) (.seq (.cls slashDash)
      (.rep Char.isDigit 2 (some 4))))))) .bnd)

/-- The full month names, in the source's alternation order. -/
def monthsFull : List Rx :=
  [.str "january", .str "february", .str "march", .str "april", .str "may", .str "june",
   .str "july", .str "august", .str "september", .str "october", .str "november",
   .str "december"]

/-- The abbreviated month names, in the source's alternation order. -/
def monthsAbbr : List Rx :=
  [.str "jan", .str "feb", .str "mar", .str "apr", .str "may", .str "jun", .str "jul",
   .str "aug", .str "sep", .str "oct", .str "nov", .str "dec"]

/-- The common tail `\s+\d{1,2}(?:st|nd|rd|th)?,?\s*\d{0,4}\b` of the month
date patterns. -/
def dateMonthTail : Rx :=
  .seq (.rep isSpc 1 none) (.seq (.rep Char.isDigit 1 (some 2))
    (.seq (.opt (altList [.str "st", .str "nd", .str "rd", .str "th"]))
      (.seq (.opt (.cls (· == ','))) (.seq (.rep isSpc 0 none)
        (.seq (.rep Char.isDigit 0 (some 4)) .bnd)))))

/-- Date pattern `\b(january|...|december)\s+\d{1,2}(?:st|nd|rd|th)?,?\s*\d{0,4}\b`. -/
def dateRx2 : Rx := .seq .bnd (.seq (.grp (altList monthsFull)) dateMonthTail)

/-- Date pattern `\b(jan|...|dec)\.?\s+\d{1,2}(?:st|nd|rd|th)?,?\s*\d{0,4}\b`. -/
def dateRx3 : Rx :=
  .seq .bnd (.seq (.grp (altList monthsAbbr)) (.seq (.opt (.cls (· == '.'))) dateMonthTail))

/-- The day words `(week|month|monday|...|sunday)` in the source's order. -/
def dayWords : List Rx :=
  [.str "week", .str "month", .str "monday", .str "tuesday", .str "wednesday",
   .str "thursday", .str "friday", .str "saturday", .str "sunday"]

/-- Date pattern `\bnext\s+(week|month|monday|...|sunday)\b`. -/
def dateRx4 : Rx :=
  .seq .bnd (.seq (.str "next") (.seq (.rep isSpc 1 none) (.seq (.grp (altList dayWords)) .bnd)))

/-- Date pattern `\bthis\s+(week|month|monday|...|sunday)\b`. -/
def dateRx5 : Rx :=
  .seq .bnd (.seq (.str "this") (.seq (.rep isSpc 1 none) (.seq (.grp (altList dayWords)) .bnd)))

/-- The `date_patterns` list, in order. -/
def datePatterns : List Rx := [dateRx1, dateRx2, dateRx3, dateRx4, dateRx5]

/-- Bedroom pattern `(\d+)\s*(?:bed(?:room)?s?|br|bdr)`. -/
def sizeRx1 : Rx :=
  .seq (.grp (.rep Char.isDigit 1 none)) (.seq (.rep isSpc 0 none)
    (altList [.seq (.str "bed") (.seq (.opt (.str "room")) (.opt (.cls (· == 's')))),
              .str "br", .str "bdr"]))

/-- Bedroom pattern `(\d+)\s*(?:bedroom|bed)\s*(?:house|home|apt|apartment)`. -/
def sizeRx2 : Rx :=
  .seq (.grp (.rep Char.isDigit 1 none)) (.seq (.rep isSpc 0 none)
    (.seq (altList [.str "bedroom", .str "bed"]) (.seq (.rep isSpc 0 none)
      (altList [.str "house", .str "home", .str "apt", .str "apartment"]))))

/-- The literal pattern `studio`. -/
def sizeRx3 : Rx := .str "studio"

/-- Square-footage pattern `(\d+)\s*(?:sq\.?\s*ft|square\s*feet)`. -/
def sizeRx4 : Rx :=
  .seq (.grp (.rep Char.isDigit 1 none)) (.seq (.rep isSpc 0 none)
    (altList [.seq (.str "sq") (.seq (.opt (.cls (· == '.'))) (.seq (.rep isSpc 0 none) (.str "ft"))),
              .seq (.str "square") (.seq (.rep isSpc 0 none) (.str "feet"))]))

/-- The `bedroom_patterns` list, in order; the flag marks the one pattern whose
regex text contains `sq`/`square` (the source branches on that). -/
def sizePatterns : List (Rx × Bool) :=
  [(sizeRx1, false), (sizeRx2, false), (sizeRx3, false), (sizeRx4, true)]

/-! ## `extract_contact_info` and the per-message field extractors -/

/-- The result of `extract_contact_info`. -/
structure ContactBits where
  email : Option String
  phone : Option String
deriving DecidableEq, Repr

/-- `extract_contact_info(text)`: first email match and first phone match. -/
def extract_contact_info (text : String) : ContactBits :=
  { email := (rxSearch emailRx text.toList).map (fun m => String.mk m.1),
    phone := (rxSearch phoneRx text.toList).map (fun m => String.mk m.1) }

/-- The `name_prefixes` list of `get_session_contact_info`, in order. -/
def namePrefixes : List String :=
  ["my name is", "i am", "i'm", "this is", "name is", "call me", "it's"]

/-- The prefix loop of the name detection: for the first prefix contained in
the lowered text whose following words survive cleanup with length `> 1`,
the title-cased cleanup is the name; an invalid candidate falls through to
the next prefix (the `break` sits inside the validity check). -/
def nameFromIntroGo (cs lower : List Char) : List String → Option String
  | [] => none
  | pfx :: rest =>
    match findSub lower pfx.toList with
    | none => nameFromIntroGo cs lower rest
    | some i =>
      let idx := i + pfx.length
      let namePart := stripWs (cs.drop idx)
      let nameWords := (splitWs namePart).take 3
      let nameClean := stripChars ".,!?".toList (joinSep [' '] nameWords)
      if !nameClean.isEmpty && nameClean.length > 1 then
        some (String.mk (titleCase nameClean))
      else nameFromIntroGo cs lower rest

/-- Name from an explicit self-introduction ("my name is ...", etc.). -/
def nameFromIntro (text : String) : Option String :=
  nameFromIntroGo text.toList (lcLower text.toList) namePrefixes

/-- The `service_keywords_check` list guarding the short-message name fallback. -/
def serviceKeywordsCheck : List String :=
  ["move", "moving", "clean", "cleaning", "help", "need", "want", "looking", "from", "to",
   "house", "apartment", "office", "bedroom", "quote", "price", "cost"]

/-- The short-message name fallback: a message of at most 3 words that is all
alphabetic after removing spaces/hyphens and punctuation strip, longer than one
character, and free of service keywords, is treated as a name. (The caller
applies this only when no name is collected yet.) -/
def nameFallback (text : String) : Option String :=
  let cs := text.toList
  if (splitWs cs).length ≤ 3 then
    let cleanText := stripChars ".,!?".toList cs
    if isAlphaStr ((cleanText.filter (fun c => !(c == ' '))).filter (fun c => !(c == '-')))
        && cleanText.length > 1 then
      if !(serviceKeywordsCheck.any fun kw => containsSub (lcLower cleanText) kw.toList) then
        some (String.mk (titleCase cleanText))
      else none
    else none
  else none

/-- The `service_keywords` entry for moving. -/
def movingKeywords : List String :=
  ["move", "moving", "relocate", "relocation", "mudanza", "mudar"]

/-- The `service_keywords` entry for cleaning. -/
def cleaningKeywords : List String := ["clean", "cleaning", "limpieza", "limpiar"]

/-- Service-interest detection: the source iterates the keyword dict in
insertion order (moving, then cleaning) and assigns on every hit, so when both
keyword sets match, the later iteration (cleaning) wins. -/
def detectServiceInterest (lower : List Char) : Option String :=
  let m := movingKeywords.any fun kw => containsSub lower kw.toList
  let c := cleaningKeywords.any fun kw => containsSub lower kw.toList
  if c then some "cleaning" else if m then some "moving" else none

/-- The residential keyword test (`residential`/`house`/`home`/`apartment`). -/
def residentialHit (lower : List Char) : Bool :=
  containsSub lower "residential".toList || containsSub lower "house".toList ||
  containsSub lower "home".toList || containsSub lower "apartment".toList

/-- The commercial keyword test (`commercial`/`office`/`business`). -/
def commercialHit (lower : List Char) : Bool :=
  containsSub lower "commercial".toList || containsSub lower "office".toList ||
  containsSub lower "business".toList

/-- The `service_type` branch: keyed on the (already updated) service interest;
when neither keyword set matches, or the interest is unset, the old value is
kept. -/
def serviceTypeStep (lower : List Char) (serviceInterest old : Option String) : Option String :=
  if residentialHit lower then
    if serviceInterest = some "moving" then some "Residential Moving"
    else if serviceInterest = some "cleaning" then some "Residential Cleaning"
    else old
  else if commercialHit lower then
    if serviceInterest = some "moving" then some "Commercial Moving"
    else if serviceInterest = some "cleaning" then some "Commercial Cleaning"
    else old
  else old

/-- The property-size loop: the first pattern with a match decides; the output
is `Studio` whenever the text mentions `studio`, else `N sq ft` for the
square-footage pattern, else `N bedroom` with `N` the captured digits. -/
def extractPropertySize (lower : List Char) : Option String :=
  sizePatterns.findSome? fun rb =>
    (rxSearch rb.1 lower).map fun m =>
      if containsSub lower "studio".toList then "Studio"
      else if rb.2 then String.mk (m.2.getD [] ++ " sq ft".toList)
      else String.mk (m.2.getD [] ++ " bedroom".toList)

/-- The `address_indicators` list. -/
def addressIndicators : List String :=
  ["street", "st.", "st,", "avenue", "ave", "road", "rd", "drive", "dr", "lane", "ln",
   "blvd", "boulevard", "way", "court", "ct"]

/-- The date loop: first pattern with a match wins, `group(0)` is stored. -/
def extractDate (lower : List Char) : Option String :=
  datePatterns.findSome? fun r => (rxSearch r lower).map (fun m => String.mk m.1)

/-- The `special_items_keywords` list. -/
def specialItemsKeywords : List String :=
  ["piano", "antique", "artwork", "art", "fragile", "heavy", "safe", "gun safe",
   "pool table", "hot tub", "exercise equipment", "gym equipment", "tv", "television",
   "glass", "mirror", "chandelier"]

/-- All special-item keywords contained in the text, joined with `", "`. -/
def extractSpecialItems (lower : List Char) : Option String :=
  let found := specialItemsKeywords.filter fun item => containsSub lower item.toList
  if found.isEmpty then none else some (String.intercalate ", " found)

/-! ## The session aggregator `get_session_contact_info` -/

/-- A `chat_messages` document. -/
structure ChatMsg where
  id : String
  sessionId : String
  message : String
  sender : String
  timestamp : Int
deriving DecidableEq, Repr

/-- Stable insertion into a timestamp-sorted list. -/
def insertByTs (m : ChatMsg) : List ChatMsg → List ChatMsg
  | [] => [m]
  | x :: xs => if x.timestamp < m.timestamp then x :: insertByTs m xs else m :: x :: xs

/-- Stable sort by ascending timestamp (the `.sort("timestamp", 1)` query). -/
def sortByTimestamp : List ChatMsg → List ChatMsg
  | [] => []
  | m :: ms => insertByTs m (sortByTimestamp ms)

/-- The `collected_info` record of `get_session_contact_info`. -/
structure CollectedInfo where
  name : Option String := none
  email : Option String := none
  phone : Option String := none
  service_interest : Option String := none
  service_type : Option String := none
  from_address : Option String := none
  to_address : Option String := none
  move_date : Option String := none
  property_size : Option String := none
  special_items : Option String := none
  additional_details : Option String := none
  messages : List String := []
deriving DecidableEq, Repr

/-- The message accumulator (`collected_info['messages'].append(text)`). -/
def stepMessages (info : CollectedInfo) (text : String) : CollectedInfo :=
  { info with messages := info.messages ++ [text] }

/-- The email assignment `if info['email']: collected_info['email'] = ...`:
a match overwrites, no match keeps the old value. -/
def stepEmail (info : CollectedInfo) (text : String) : CollectedInfo :=
  { info with email := ((extract_contact_info text).email).or info.email }

/-- The phone assignment, same shape as the email one. -/
def stepPhone (info : CollectedInfo) (text : String) : CollectedInfo :=
  { info with phone := ((extract_contact_info text).phone).or info.phone }

/-- The introduction-prefix name assignment: a valid candidate overwrites the
collected name unconditionally (the source has no unset-guard here). -/
def stepNameIntro (info : CollectedInfo) (text : String) : CollectedInfo :=
  { info with name := (nameFromIntro text).or info.name }

/-- The short-message name fallback, guarded by
`if not collected_info['name']`: it fires only when the name is unset. -/
def stepNameFallback (info : CollectedInfo) (text : String) : CollectedInfo :=
  { info with name := info.name.or (nameFallback text) }

/-- The service-interest assignment: a keyword hit overwrites. -/
def stepServiceInterest (info : CollectedInfo) (lower : List Char) : CollectedInfo :=
  { info with service_interest := (detectServiceInterest lower).or info.service_interest }

/-- The service-type branch, keyed on the just-updated service interest. -/
def stepServiceType (info : CollectedInfo) (lower : List Char) : CollectedInfo :=
  { info with service_type := serviceTypeStep lower info.service_interest info.service_type }

/-- The property-size assignment: a pattern hit overwrites. -/
def stepPropertySize (info : CollectedInfo) (lower : List Char) : CollectedInfo :=
  { info with property_size := (extractPropertySize lower).or info.property_size }

/-- The address if/elif chain: both slots are assigned only when still empty
(first writer wins), `from`/`to` context words route the message, and an
otherwise unrouted address message falls back to the first empty slot. -/
def addressSlots (fromA toA : Option String) (text : String) (lower : List Char) :
    Option String × Option String :=
  if addressIndicators.any (fun ind => containsSub lower ind.toList) then
    if containsSub lower "from".toList && fromA.isNone then (some text, toA)
    else if containsSub lower "to".toList && toA.isNone then (fromA, some text)
    else if fromA.isNone then (some text, toA)
    else if toA.isNone then (fromA, some text)
    else (fromA, toA)
  else (fromA, toA)

/-- The address detection step. -/
def stepAddress (info : CollectedInfo) (text : String) (lower : List Char) : CollectedInfo :=
  { info with
    from_address := (addressSlots info.from_address info.to_address text lower).1
    to_address := (addressSlots info.from_address info.to_address text lower).2 }

/-- The date assignment: a pattern hit overwrites. -/
def stepDate (info : CollectedInfo) (lower : List Char) : CollectedInfo :=
  { info with move_date := (extractDate lower).or info.move_date }

/-- The special-items assignment: a keyword hit overwrites. -/
def stepSpecialItems (info : CollectedInfo) (lower : List Char) : CollectedInfo :=
  { info with special_items := (extractSpecialItems lower).or info.special_items }

/-- One iteration of the message loop of `get_session_contact_info`, the
steps in the source's statement order. -/
def updateCollected (info : CollectedInfo) (text : String) : CollectedInfo :=
  let lower := lcLower text.toList
  let i1 := stepMessages info text
  let i2 := stepEmail i1 text
  let i3 := stepPhone i2 text
  let i4 := stepNameIntro i3 text
  let i5 := stepNameFallback i4 text
  let i6 := stepServiceInterest i5 lower
  let i7 := stepServiceType i6 lower
  let i8 := stepPropertySize i7 lower
  let i9 := stepAddress i8 text lower
  let i10 := stepDate i9 lower
  stepSpecialItems i10 lower

/-- `get_session_contact_info(session_id)`: fold the per-message update over
the session's messages in ascending timestamp order, restricted to
user-authored messages, then record the last five user messages as
`additional_details`. -/
def get_session_contact_info (msgs : List ChatMsg) (sessionId : String) : CollectedInfo :=
  let sorted := sortByTimestamp (msgs.filter fun m => m.sessionId == sessionId)
  let info := sorted.foldl
    (fun info m => if m.sender == "user" then updateCollected info m.message else info) {}
  { info with additional_details :=
      if info.messages.isEmpty then none
      else some (String.intercalate " | " (info.messages.drop (info.messages.length - 5))) }

/-! ## The data model (`models.py` and the MongoDB documents) -/

/-- The `PaymentType` enum (deposit, partial, full, refund). -/
inductive PaymentType : Type where
  | deposit
  | partPay
  | full
  | refund
deriving DecidableEq, Repr

/-- The string value of a `PaymentType` member. -/
def PaymentType.val : PaymentType → String
  | .deposit => "deposit"
  | .partPay => "partial"
  | .full => "full"
  | .refund => "refund"

/-- The `PaymentMethod` enum. -/
inductive PaymentMethod : Type where
  | cash
  | card
  | check
  | bankTransfer
  | other
deriving DecidableEq, Repr

/-- The string value of a `PaymentMethod` member. -/
def PaymentMethod.val : PaymentMethod → String
  | .cash => "cash"
  | .card => "card"
  | .check => "check"
  | .bankTransfer => "bank_transfer"
  | .other => "other"

/-- The `TaskStatus` enum. -/
inductive TaskStatus : Type where
  | pending
  | inProgress
  | completed
  | cancelled
deriving DecidableEq, Repr

/-- The string value of a `TaskStatus` member. -/
def TaskStatus.val : TaskStatus → String
  | .pending => "pending"
  | .inProgress => "in_progress"
  | .completed => "completed"
  | .cancelled => "cancelled"

/-- The `TaskPriority` enum. -/
inductive TaskPriority : Type where
  | low
  | medium
  | high
  | urgent
deriving DecidableEq, Repr

/-- The string value of a `TaskPriority` member. -/
def TaskPriority.val : TaskPriority → String
  | .low => "low"
  | .medium => "medium"
  | .high => "high"
  | .urgent => "urgent"

/-- The `TaskType` enum. -/
inductive TaskType : Type where
  | followUp
  | confirmation
  | quoteReview
  | scheduleCall
  | sendInvoice
  | collectPayment
  | preMoveCheck
  | postServiceFollowup
  | custom
deriving DecidableEq, Repr

/-- The string value of a `TaskType` member. -/
def TaskType.val : TaskType → String
  | .followUp => "follow_up"
  | .confirmation => "confirmation"
  | .quoteReview => "quote_review"
  | .scheduleCall => "schedule_call"
  | .sendInvoice => "send_invoice"
  | .collectPayment => "collect_payment"
  | .preMoveCheck => "pre_move_check"
  | .postServiceFollowup => "post_service_followup"
  | .custom => "custom"

/-- A stored datetime: either parsed from a supplied ISO string (after the
source's `replace('Z', '+00:00')`) or built from the clock; the routes only
move such values around, never inspect them. -/
inductive DateVal : Type where
  | iso (s : String)
  | instant (t : Int)
deriving DecidableEq, Repr

/-- A `payments` document (amounts as rationals, enum values as the strings
MongoDB stores). -/
structure Payment where
  id : String
  bookingId : String
  amount : ℚ
  paymentType : String
  paymentMethod : String
  notes : Option String := none
  createdAt : Int
deriving DecidableEq, Repr

/-- A `tasks` document. -/
structure Task where
  id : String
  bookingId : Option String := none
  contactId : Option String := none
  title : String
  description : Option String := none
  taskType : String
  priority : String := "medium"
  status : String := "pending"
  dueDate : Option Int := none
  assignedTo : Option String := none
  autoGenerated : Bool := false
  contactName : Option String := none
  contactEmail : Option String := none
  serviceType : Option String := none
  serviceContext : Option String := none
  startedAt : Option Int := none
  createdAt : Int
  completedAt : Option Int := none
deriving DecidableEq, Repr

/-- A `bookings` document (`ServiceBooking`). -/
structure Booking where
  id : String
  name : String
  email : String
  phone : String
  serviceType : String
  moveSize : Option String := none
  currentAddress : String
  newAddress : Option String := none
  preferredDate : DateVal
  preferredTime : Option String := none
  hoursNeeded : Option String := none
  specialRequests : Option String := none
  status : String := "pending"
  totalCost : Option ℚ := none
  contractorCost : Option ℚ := none
  laborHours : Option ℚ := none
  convertedFromChatbot : Option String := none
  createdAt : Int
  updatedAt : Int
deriving DecidableEq, Repr

/-- A `contacts` document (contact-form submission or chatbot lead). -/
structure Contact where
  id : String
  name : String
  email : String
  phone : String
  subject : String
  message : String
  status : String
  source : Option String := none
  sessionId : Option String := none
  notes : Option String := none
  convertedToBooking : Option String := none
  createdAt : Int
  updatedAt : Int
deriving DecidableEq, Repr

/-- A `chat_sessions` document. -/
structure ChatSessionDoc where
  id : String
  createdAt : Int
  lastActivity : Int
  updatedAt : Int
  customerName : Option String := none
  customerEmail : Option String := none
  customerPhone : Option String := none
  serviceInterest : Option String := none
  serviceType : Option String := none
  fromAddress : Option String := none
  toAddress : Option String := none
  preferredDate : Option String := none
  propertySize : Option String := none
deriving DecidableEq, Repr

/-- The database state: one list per MongoDB collection, in insertion order
(`insert_one` appends; `find_one` and `update_one` take the first match). -/
structure DB where
  contacts : List Contact := []
  bookings : List Booking := []
  payments : List Payment := []
  tasks : List Task := []
  chat_messages : List ChatMsg := []
  chat_sessions : List ChatSessionDoc := []
deriving DecidableEq, Repr

/-- An HTTP error raised by a route (`HTTPException(status_code, detail)`). -/
structure ApiError where
  statusCode : Nat
  detail : String
deriving DecidableEq, Repr

/-- A 404. -/
def ApiError.notFound (d : String) : ApiError := ⟨404, d⟩

/-- A 400. -/
def ApiError.badRequest (d : String) : ApiError := ⟨400, d⟩

/-- A 500 (an unexpected exception caught by the generic handler). -/
def ApiError.internal (d : String) : ApiError := ⟨500, d⟩

/-- Python `booking.get('totalCost', 0) or 0`: both a missing value and a
stored `0.0` collapse to `0`. -/
def orZero : Option ℚ → ℚ
  | none => 0
  | some c => if c = 0 then 0 else c

/-- `timedelta(days = d)` on a timestamp counted in seconds. -/
def addDays (t : Int) (d : Int) : Int := t + d * 86400

/-- Python truthiness of `dict.get(key)` for a string field: absent and empty
both count as false. -/
def getTruthy : Option String → Option String
  | some s => if s = "" then none else some s
  | none => none

/-- MongoDB `update_one`: rewrite the first document matching `p`. -/
def updateFirst (p : α → Bool) (f : α → α) : List α → List α
  | [] => []
  | x :: xs => if p x then f x :: xs else x :: updateFirst p f xs

/-- Python `str.replace(pat, rep)` (all occurrences). -/
def replaceSub (cs pat rep : List Char) : List Char :=
  joinSep rep (splitSub cs pat)

/-! ## Booking details and derived financials (`get_booking_details`) -/

/-- The `financials` summary computed by `get_booking_details`. -/
structure Financials where
  totalCost : ℚ
  totalPaid : ℚ
  totalRefunded : ℚ
  balanceDue : ℚ
  paymentStatus : String
deriving DecidableEq, Repr

/-- The payment-summary block of `get_booking_details`: sums over the
booking's payments, with the status keyed on the raw (pre-max) balance. -/
def bookingFinancials (totalCost? : Option ℚ) (payments : List Payment) : Financials :=
  let total_paid := ((payments.filter fun p => !(p.paymentType == "refund")).map Payment.amount).sum
  let total_refunded := ((payments.filter fun p => p.paymentType == "refund").map Payment.amount).sum
  let total_cost := orZero totalCost?
  let balance_due := total_cost - total_paid + total_refunded
  { totalCost := total_cost
    totalPaid := total_paid
    totalRefunded := total_refunded
    balanceDue := max 0 balance_due
    paymentStatus :=
      if balance_due ≤ 0 ∧ total_cost > 0 then "paid"
      else if total_paid > 0 then "partial"
      else "unpaid" }

/-- The result of `get_booking_details`. -/
structure BookingDetails where
  booking : Booking
  payments : List Payment
  tasks : List Task
  financials : Financials
deriving DecidableEq, Repr

/-- `GET /admin/bookings/.../details`. -/
def get_booking_details (db : DB) (bookingId : String) : Except ApiError BookingDetails :=
  match db.bookings.find? (fun b => b.id == bookingId) with
  | none => .error (ApiError.notFound "Booking not found")
  | some booking =>
    let payments := db.payments.filter fun p => p.bookingId == bookingId
    let tasks := db.tasks.filter fun t => t.bookingId == some bookingId
    .ok { booking := booking, payments := payments, tasks := tasks,
          financials := bookingFinancials booking.totalCost payments }

/-! ## Payment creation (`create_payment`) -/

/-- The `PaymentCreate` request model: `amount` is an unconstrained float. -/
structure PaymentCreateData where
  bookingId : String
  amount : ℚ
  paymentType : PaymentType
  paymentMethod : PaymentMethod
  notes : Option String := none
deriving DecidableEq, Repr

/-- `POST /admin/payments`: verify the booking exists, append the payment,
and auto-create a collect-payment task when the payment is a deposit. -/
def create_payment (db : DB) (pd : PaymentCreateData) (now : Int)
    (paymentId taskId : String) : Except ApiError String × DB :=
  match db.bookings.find? (fun b => b.id == pd.bookingId) with
  | none => (.error (ApiError.notFound "Booking not found"), db)
  | some _ =>
    let payment : Payment :=
      { id := paymentId, bookingId := pd.bookingId, amount := pd.amount,
        paymentType := pd.paymentType.val, paymentMethod := pd.paymentMethod.val,
        notes := pd.notes, createdAt := now }
    let db1 := { db with payments := db.payments ++ [payment] }
    if pd.paymentType = PaymentType.deposit then
      let task : Task :=
        { id := taskId, bookingId := some pd.bookingId,
          title := "Collect remaining balance for booking",
          description := some ("Deposit of $" ++ toString pd.amount ++
            " received. Follow up for remaining balance."),
          taskType := TaskType.collectPayment.val, priority := TaskPriority.medium.val,
          autoGenerated := true, dueDate := some (addDays now 3), createdAt := now }
      (.ok paymentId, { db1 with tasks := db1.tasks ++ [task] })
    else (.ok paymentId, db1)

/-! ## Chatbot-lead conversion (`convert_chatbot_to_booking`) -/

/-- The optional admin overrides in the conversion request body. -/
structure ConversionData where
  customerName : Option String := none
  serviceType : Option String := none
  preferredDate : Option String := none
  currentAddress : Option String := none
  newAddress : Option String := none
  moveSize : Option String := none
  preferredTime : Option String := none
  hoursNeeded : Option String := none
deriving DecidableEq, Repr

/-- A point at which one of the conversion's three writes raises; writes made
before it persist (MongoDB performs no multi-document transaction here). -/
inductive FailPoint : Type where
  | bookingInsert
  | leadUpdate
  | taskInsert
deriving DecidableEq, Repr

/-- Customer-name extraction from a `Conversation Notes:` marker in the
lead's message: the text after the marker is split on `|`; the first piece is
the name when it is nonempty, holds no `@` and is not all digits. -/
def nameFromConversationNotes (messageContent dflt : String) : String :=
  if containsStr messageContent "Conversation Notes:" then
    let notesPart := stripWs (splitLastAfter messageContent.toList "Conversation Notes:".toList)
    let parts := (splitSub notesPart "|".toList).map stripWs
    match parts.head? with
    | some p0 =>
      if !p0.isEmpty && !containsSub p0 "@".toList && !isDigitStr p0 then String.mk p0
      else dflt
    | none => dflt
  else dflt

/-- `POST /admin/chatbot-quotes/.../convert-to-booking` with an optional
injected failure point after which the remaining writes do not happen (the
exception is caught by the generic handler and surfaces as a 500). -/
def convertChatbotAux (db : DB) (quoteId : String) (conv : ConversionData) (now : Int)
    (bookingId taskId : String) (failAt : Option FailPoint) :
    Except ApiError (String × String × String) × DB :=
  match db.contacts.find? (fun c => c.id == quoteId && c.source == some "chatbot") with
  | none => (.error (ApiError.notFound "Chatbot quote not found"), db)
  | some quote =>
    match db.bookings.find? (fun b => b.convertedFromChatbot == some quoteId) with
    | some _ =>
      (.error (ApiError.badRequest "This quote has already been converted to a booking"), db)
    | none =>
      let customer_name := nameFromConversationNotes quote.message quote.name
      -- the manual override has priority; the greeting-detection elif only `pass`es
      let customer_name := match getTruthy conv.customerName with
        | some n => n
        | none => customer_name
      let service_type := conv.serviceType.getD "General Service"
      let preferred_date : DateVal := match conv.preferredDate with
        | some s => .iso (String.mk (replaceSub s.toList "Z".toList "+00:00".toList))
        | none => .instant (addDays now 7)
      let current_address := conv.currentAddress.getD "To be confirmed"
      let current_address :=
        if current_address == "To be confirmed" && containsStr quote.message "From Address:" then
          let addrPart := stripWs
            ((splitLastAfter quote.message.toList "From Address:".toList).takeWhile (· ≠ '\n'))
          if !addrPart.isEmpty then String.mk addrPart else current_address
        else current_address
      let booking : Booking :=
        { id := bookingId, name := customer_name, email := quote.email, phone := quote.phone,
          serviceType := service_type, moveSize := conv.moveSize,
          currentAddress := current_address, newAddress := conv.newAddress,
          preferredDate := preferred_date,
          preferredTime := some (conv.preferredTime.getD "flexible"),
          hoursNeeded := conv.hoursNeeded,
          specialRequests := some (match getTruthy quote.notes with
            | some n => n
            | none => quote.message),
          status := "pending", totalCost := none, contractorCost := none, laborHours := none,
          convertedFromChatbot := some quoteId, createdAt := now, updatedAt := now }
      if failAt = some FailPoint.bookingInsert then
        (.error (ApiError.internal "Error converting quote to booking"), db)
      else
        let db1 := { db with bookings := db.bookings ++ [booking] }
        if failAt = some FailPoint.leadUpdate then
          (.error (ApiError.internal "Error converting quote to booking"), db1)
        else
          let markLead : Contact → Contact := fun c =>
            { c with
              status := "contacted",
              convertedToBooking := some bookingId,
              updatedAt := now }
          let db2 := { db1 with
            contacts := updateFirst (fun c => c.id == quoteId) markLead db1.contacts }
          if failAt = some FailPoint.taskInsert then
            (.error (ApiError.internal "Error converting quote to booking"), db2)
          else
            let task : Task :=
              { id := taskId, bookingId := some bookingId, contactId := some quoteId,
                title := "Initial follow-up: " ++ customer_name,
                description := some "Booking converted from chatbot lead. Confirm service details and schedule.",
                taskType := "follow_up", priority := "high", status := "pending",
                dueDate := some (addDays now 1), autoGenerated := true,
                contactName := some customer_name, contactEmail := some quote.email,
                serviceType := some service_type,
                serviceContext := some ("Converted from chatbot quote. Original message: " ++
                  String.mk (quote.message.toList.take 100)),
                createdAt := now, completedAt := none, startedAt := none }
            let db3 := { db2 with tasks := db2.tasks ++ [task] }
            (.ok (bookingId, taskId, customer_name), db3)

/-- The conversion route as it runs when no write raises. -/
def convert_chatbot_to_booking (db : DB) (quoteId : String) (conv : ConversionData)
    (now : Int) (bookingId taskId : String) :
    Except ApiError (String × String × String) × DB :=
  convertChatbotAux db quoteId conv now bookingId taskId none

/-! ## Booking-form creation (`create_booking` of `routes/bookings.py`) -/

/-- The `ServiceBookingCreate` request model. -/
structure ServiceBookingCreateData where
  name : String
  email : String
  phone : String
  serviceType : String
  moveSize : Option String := none
  currentAddress : String
  newAddress : Option String := none
  preferredDate : Int
  preferredTime : Option String := none
  hoursNeeded : Option String := none
  specialRequests : Option String := none
deriving DecidableEq, Repr

/-- `POST /bookings/`: a form booking; `convertedFromChatbot` stays at the
model default `None`. -/
def create_booking (db : DB) (bd : ServiceBookingCreateData) (now : Int)
    (bookingId : String) : Booking × DB :=
  let booking : Booking :=
    { id := bookingId, name := bd.name, email := bd.email, phone := bd.phone,
      serviceType := bd.serviceType, moveSize := bd.moveSize,
      currentAddress := bd.currentAddress, newAddress := bd.newAddress,
      preferredDate := DateVal.instant bd.preferredDate, preferredTime := bd.preferredTime,
      hoursNeeded := bd.hoursNeeded, specialRequests := bd.specialRequests,
      status := "pending", totalCost := none, contractorCost := none, laborHours := none,
      convertedFromChatbot := none, createdAt := now, updatedAt := now }
  (booking, { db with bookings := db.bookings ++ [booking] })

/-! ## Task update and status transition -/

/-- The `TaskUpdate` request model; `completedAt` is accepted by the model but
never read by the handler. -/
structure TaskUpdateData where
  title : Option String := none
  description : Option String := none
  priority : Option TaskPriority := none
  status : Option TaskStatus := none
  dueDate : Option Int := none
  completedAt : Option Int := none
deriving DecidableEq, Repr

/-- The `$set` document built by `update_task`, applied to a task: the status
(with its timestamp side effects keyed only on the target) and any other
provided fields. -/
def applyTaskUpdate (upd : TaskUpdateData) (now : Int) (t : Task) : Task :=
  { t with
    title := upd.title.getD t.title
    description := match upd.description with
      | some d => some d
      | none => t.description
    priority := match upd.priority with
      | some p => p.val
      | none => t.priority
    status := match upd.status with
      | some s => s.val
      | none => t.status
    startedAt := match upd.status with
      | some TaskStatus.inProgress => some now
      | some TaskStatus.pending => none
      | _ => t.startedAt
    completedAt := match upd.status with
      | some TaskStatus.completed => some now
      | some TaskStatus.pending => none
      | _ => t.completedAt
    dueDate := match upd.dueDate with
      | some d => some d
      | none => t.dueDate }

/-- `PUT /admin/tasks/...`: the generic update; no transition validation, a
400 when no field is provided, a 404 when the id matches no task. -/
def update_task (db : DB) (taskId : String) (upd : TaskUpdateData) (now : Int) :
    Except ApiError (Option String) × DB :=
  let hasField := upd.title.isSome || upd.description.isSome || upd.priority.isSome ||
    upd.status.isSome || upd.dueDate.isSome
  if !hasField then (.error (ApiError.badRequest "No fields to update"), db)
  else if (db.tasks.find? (fun t => t.id == taskId)).isSome then
    (.ok (upd.status.map TaskStatus.val),
     { db with tasks := updateFirst (fun t => t.id == taskId) (applyTaskUpdate upd now) db.tasks })
  else (.error (ApiError.notFound "Task not found"), db)

/-- The `valid_transitions` table of `transition_task_status`
(`dict.get(current, [])`). -/
def validTransitions (current : String) : List String :=
  if current = "pending" then ["in_progress", "completed", "cancelled"]
  else if current = "in_progress" then ["completed", "pending", "cancelled"]
  else if current = "completed" then ["pending"]
  else if current = "cancelled" then ["pending"]
  else []

/-- The `$set` document built by `transition_task_status` for a validated
target status. -/
def applyTransition (target : String) (now : Int) (t : Task) : Task :=
  { t with
    status := target
    startedAt := if target = "in_progress" then some now
      else if target = "pending" then none
      else t.startedAt
    completedAt := if target = "completed" then some now
      else if target = "pending" then none
      else t.completedAt }

/-- `PUT /admin/tasks/.../transition`: validated status transition. -/
def transition_task_status (db : DB) (taskId target : String) (now : Int) :
    Except ApiError (String × String) × DB :=
  match db.tasks.find? (fun t => t.id == taskId) with
  | none => (.error (ApiError.notFound "Task not found"), db)
  | some task =>
    let current := task.status
    if (validTransitions current).contains target then
      (.ok (current, target),
       { db with tasks := updateFirst (fun t => t.id == taskId) (applyTransition target now) db.tasks })
    else
      (.error (ApiError.badRequest ("Invalid transition from '" ++ current ++ "' to '" ++
        target ++ "'")), db)

/-! ## The chat route `send_chat_message`

The outbound LLM call is the opaque external text-completion service of the
system: the prompt assembled for it (system message, conversation context,
language detection) feeds only that call, so the call's outcome enters the
embedding as the `llm` parameter, `Except Unit String`. Every exception inside
the handler body, including the `HTTPException` raised for a missing API key,
is caught by the handler's own `except Exception` clause, which stores and
returns the deterministic fallback message. -/

/-- The deterministic fallback bot reply. -/
def fallbackText : String :=
  "I'm sorry, I'm having trouble responding right now. Please call us at (812) 669-4165 or use our booking form for assistance with your moving and cleaning needs."

/-- The name keywords of the in-handler enrichment block (a sublist of the
aggregator's `name_prefixes`). -/
def enrichNameKeywords : List String := ["my name is", "i am", "i'm", "this is", "name is"]

/-- The keyword loop of the enrichment block: the name is the title-cased
remainder (of the lowercased text) after the last occurrence of the first
keyword that leaves a nonempty remainder. -/
def enrichNameGo (lowerText : List Char) : List String → Option String
  | [] => none
  | kw :: rest =>
    if containsSub lowerText kw.toList then
      let namePart := stripWs (splitLastAfter lowerText kw.toList)
      if !namePart.isEmpty then some (String.mk (titleCase namePart))
      else enrichNameGo lowerText rest
    else enrichNameGo lowerText rest

/-- The current-message enrichment of `send_chat_message`: email and phone
matches from the current message overwrite the aggregate; a name is attempted
from the current message only when the aggregate has none. -/
def enrichContactInfo (info : CollectedInfo) (text : String) : CollectedInfo :=
  let nameMissing := info.name.isNone
  let currentBits := extract_contact_info text
  let info := match currentBits.email with
    | some e => { info with email := some e }
    | none => info
  let info := match currentBits.phone with
    | some p => { info with phone := some p }
    | none => info
  let cs := text.toList
  let lower := lcLower cs
  if nameMissing && (splitWs cs).length ≤ 4 then
    if enrichNameKeywords.any (fun kw => containsSub lower kw.toList) then
      match enrichNameGo lower enrichNameKeywords with
      | some n => { info with name := some n }
      | none => info
    else if (splitWs cs).length ≤ 3 && isAlphaStr (cs.filter (fun c => !(c == ' ')))
        && cs.length > 1 then
      { info with name := some (String.mk (titleCase cs)) }
    else info
  else info

/-- The `$set` part of the chat-session upsert: `lastActivity` and `updatedAt`
always, plus every collected customer field that is present (absent fields are
left untouched). -/
def applySessionData (info : CollectedInfo) (now : Int) (s : ChatSessionDoc) : ChatSessionDoc :=
  { s with
    lastActivity := now
    updatedAt := now
    customerName := info.name <|> s.customerName
    customerEmail := info.email <|> s.customerEmail
    customerPhone := info.phone <|> s.customerPhone
    serviceInterest := info.service_interest <|> s.serviceInterest
    serviceType := info.service_type <|> s.serviceType
    fromAddress := info.from_address <|> s.fromAddress
    toAddress := info.to_address <|> s.toAddress
    preferredDate := info.move_date <|> s.preferredDate
    propertySize := info.property_size <|> s.propertySize }

/-- The document created when the upsert matches no session (`$set` fields
plus the `$setOnInsert` `createdAt`). -/
def newSessionDoc (sessionId : String) (info : CollectedInfo) (now : Int) : ChatSessionDoc :=
  { id := sessionId, createdAt := now, lastActivity := now, updatedAt := now,
    customerName := info.name, customerEmail := info.email, customerPhone := info.phone,
    serviceInterest := info.service_interest, serviceType := info.service_type,
    fromAddress := info.from_address, toAddress := info.to_address,
    preferredDate := info.move_date, propertySize := info.property_size }

/-- The chat-session upsert. -/
def upsertSession (db : DB) (sessionId : String) (info : CollectedInfo) (now : Int) : DB :=
  if (db.chat_sessions.find? (fun s => s.id == sessionId)).isSome then
    { db with chat_sessions :=
        updateFirst (fun s => s.id == sessionId) (applySessionData info now) db.chat_sessions }
  else
    { db with chat_sessions := db.chat_sessions ++ [newSessionDoc sessionId info now] }

/-- The `service_details` lines of the lead's message, in the source's order
(the service-type line always, the rest only when collected). -/
def buildServiceDetails (info : CollectedInfo) : List String :=
  ["Service Type: " ++ ((info.service_type <|> info.service_interest).getD "General Inquiry")]
  ++ (match info.from_address with | some a => ["From Address: " ++ a] | none => [])
  ++ (match info.to_address with | some a => ["To Address: " ++ a] | none => [])
  ++ (match info.move_date with | some d => ["Preferred Date: " ++ d] | none => [])
  ++ (match info.property_size with | some s => ["Property Size: " ++ s] | none => [])
  ++ (match info.special_items with | some s => ["Special Items: " ++ s] | none => [])
  ++ (match info.additional_details with | some s => ["Conversation Notes: " ++ s] | none => [])

/-- The `contact_data` `$set` fields applied to a chatbot-lead document:
still-missing contact fields are filled with the fixed placeholders. -/
def chatContactFields (sessionId : String) (info : CollectedInfo) (now : Int)
    (c : Contact) : Contact :=
  { c with
    name := info.name.getD ("Chat User - " ++ String.mk (lastN 8 sessionId.toList))
    email := info.email.getD "pending@chat.com"
    phone := info.phone.getD "Pending"
    subject := "Chat Inquiry - " ++ ((info.service_type <|> info.service_interest).getD "General")
    message := String.intercalate "\n" (buildServiceDetails info)
    status := "new"
    sessionId := some sessionId
    source := some "chatbot"
    updatedAt := now }

/-- The lead document inserted when no chatbot lead exists for the session. -/
def newChatContact (sessionId : String) (info : CollectedInfo) (now : Int)
    (newId : String) : Contact :=
  chatContactFields sessionId info now
    { id := newId, name := "", email := "", phone := "", subject := "", message := "",
      status := "", createdAt := now, updatedAt := now }

/-- The chatbot-lead upsert keyed on (sessionId, source = chatbot). -/
def upsertChatContact (db : DB) (sessionId : String) (info : CollectedInfo) (now : Int)
    (newId : String) : DB :=
  let isLead : Contact → Bool := fun c =>
    c.sessionId == some sessionId && c.source == some "chatbot"
  if (db.contacts.find? isLead).isSome then
    { db with contacts := updateFirst isLead (chatContactFields sessionId info now) db.contacts }
  else
    { db with contacts := db.contacts ++ [newChatContact sessionId info now newId] }

/-- The contact info `send_chat_message` works with: the session aggregate
(the user message was stored first, so the aggregate already includes it)
enriched from the current message. -/
def chatCollectedInfo (db : DB) (sessionId message : String) : CollectedInfo :=
  enrichContactInfo (get_session_contact_info db.chat_messages sessionId) message

/-- `POST /chat/message`. The injected identifiers stand for the generated
UUIDs; `apiKey` is the environment's `OPENAI_API_KEY`; `llm` is the outcome of
the outbound completion call. -/
def send_chat_message (db : DB) (sessionId message : String) (apiKey : Option String)
    (llm : Except Unit String) (now : Int) (userMsgId botMsgId newContactId : String) :
    ChatMsg × DB :=
  let fallbackMsg : ChatMsg :=
    { id := botMsgId, sessionId := sessionId, message := fallbackText,
      sender := "bot", timestamp := now }
  match apiKey with
  | none =>
    -- missing key: the HTTPException is raised before the user message is
    -- stored and caught by the handler's generic except clause
    (fallbackMsg, { db with chat_messages := db.chat_messages ++ [fallbackMsg] })
  | some _ =>
    let userMsg : ChatMsg :=
      { id := userMsgId, sessionId := sessionId, message := message,
        sender := "user", timestamp := now }
    let db1 := { db with chat_messages := db.chat_messages ++ [userMsg] }
    let info := chatCollectedInfo db1 sessionId message
    match llm with
    | .error _ =>
      (fallbackMsg, { db1 with chat_messages := db1.chat_messages ++ [fallbackMsg] })
    | .ok botText =>
      let botMsg : ChatMsg :=
        { id := botMsgId, sessionId := sessionId, message := botText,
          sender := "bot", timestamp := now }
      let db2 := { db1 with chat_messages := db1.chat_messages ++ [botMsg] }
      let db3 := upsertSession db2 sessionId info now
      let db4 :=
        if info.name.isSome || info.email.isSome || info.phone.isSome then
          upsertChatContact db3 sessionId info now newContactId
        else db3
      (botMsg, db4)

/-! ## Helper lemmas -/

/-- The Python `or 0` of a present value is the value itself. -/
theorem orZero_some (c : ℚ) : orZero (some c) = c := by
  show (if c = 0 then 0 else c) = c
  split_ifs with h
  · exact h.symm
  · rfl

/-- The financials record written out, for a present total cost. -/
theorem bookingFinancials_eq (c : ℚ) (ps : List Payment) :
    bookingFinancials (some c) ps =
      { totalCost := c
        totalPaid := ((ps.filter fun p => !(p.paymentType == "refund")).map Payment.amount).sum
        totalRefunded := ((ps.filter fun p => p.paymentType == "refund").map Payment.amount).sum
        balanceDue := max 0 (c - ((ps.filter fun p => !(p.paymentType == "refund")).map Payment.amount).sum
          + ((ps.filter fun p => p.paymentType == "refund").map Payment.amount).sum)
        paymentStatus :=
          if c - ((ps.filter fun p => !(p.paymentType == "refund")).map Payment.amount).sum
              + ((ps.filter fun p => p.paymentType == "refund").map Payment.amount).sum ≤ 0 ∧ c > 0
          then "paid"
          else if ((ps.filter fun p => !(p.paymentType == "refund")).map Payment.amount).sum > 0
          then "partial"
          else "unpaid" } := by
  simp only [bookingFinancials, orZero_some]

/-! ## C1: derived booking financials -/

/-- C1: for a booking with `totalCost = C` and its recorded payments `P`, the
booking-details operation returns financials with `totalPaid` the sum of
non-refund amounts, `totalRefunded` the sum of refund amounts,
`balanceDue = max 0 (C - totalPaid + totalRefunded)`, `paymentStatus = "paid"`
iff `balanceDue ≤ 0 ∧ C > 0`, and otherwise `"partial"` when `totalPaid > 0`,
else `"unpaid"`. -/
theorem c1_booking_financials (db : DB) (bookingId : String) (b : Booking) (c : ℚ)
    (hb : db.bookings.find? (fun x => x.id == bookingId) = some b)
    (hc : b.totalCost = some c) :
    ∃ d, get_booking_details db bookingId = Except.ok d ∧
      d.financials.totalPaid =
        (((db.payments.filter fun p => p.bookingId == bookingId).filter
          fun p => !(p.paymentType == "refund")).map Payment.amount).sum ∧
      d.financials.totalRefunded =
        (((db.payments.filter fun p => p.bookingId == bookingId).filter
          fun p => p.paymentType == "refund").map Payment.amount).sum ∧
      d.financials.balanceDue =
        max 0 (c - d.financials.totalPaid + d.financials.totalRefunded) ∧
      (d.financials.paymentStatus = "paid" ↔ (d.financials.balanceDue ≤ 0 ∧ c > 0)) ∧
      (¬ (d.financials.balanceDue ≤ 0 ∧ c > 0) →
        d.financials.paymentStatus =
          if d.financials.totalPaid > 0 then "partial" else "unpaid") := by
  have hdet : get_booking_details db bookingId = Except.ok
      { booking := b,
        payments := db.payments.filter fun p => p.bookingId == bookingId,
        tasks := db.tasks.filter fun t => t.bookingId == some bookingId,
        financials := bookingFinancials b.totalCost
          (db.payments.filter fun p => p.bookingId == bookingId) } := by
    unfold get_booking_details
    rw [hb]
  set paid := (((db.payments.filter fun p => p.bookingId == bookingId).filter
    fun p => !(p.paymentType == "refund")).map Payment.amount).sum with hpaid
  set refd := (((db.payments.filter fun p => p.bookingId == bookingId).filter
    fun p => p.paymentType == "refund").map Payment.amount).sum with hrefd
  rw [hc] at hdet
  rw [bookingFinancials_eq c _] at hdet
  refine ⟨_, hdet, rfl, rfl, rfl, ?_, ?_⟩
  · show (if c - paid + refd ≤ 0 ∧ c > 0 then "paid"
        else if paid > 0 then "partial" else "unpaid") = "paid" ↔
      max 0 (c - paid + refd) ≤ 0 ∧ c > 0
    by_cases hcond : c - paid + refd ≤ 0 ∧ c > 0
    · rw [if_pos hcond]
      simp only [true_iff]
      exact ⟨max_le (le_refl 0) hcond.1, hcond.2⟩
    · rw [if_neg hcond]
      constructor
      · intro hs
        exfalso
        split_ifs at hs <;> simp at hs
      · intro hmax
        exact absurd ⟨le_trans (le_max_right 0 _) hmax.1, hmax.2⟩ hcond
  · show ¬ (max 0 (c - paid + refd) ≤ 0 ∧ c > 0) →
      (if c - paid + refd ≤ 0 ∧ c > 0 then "paid"
        else if paid > 0 then "partial" else "unpaid") =
      if paid > 0 then "partial" else "unpaid"
    intro hnot
    have hcond : ¬ (c - paid + refd ≤ 0 ∧ c > 0) := by
      intro h
      exact hnot ⟨max_le (le_refl 0) h.1, h.2⟩
    rw [if_neg hcond]

/-- A booking with an admin-entered total cost of 1000. -/
def c1bk : Booking :=
  { id := "b1", name := "A", email := "a@b.com", phone := "1", serviceType := "moving",
    currentAddress := "x", preferredDate := DateVal.instant 0, totalCost := some 1000,
    createdAt := 0, updatedAt := 0 }

/-- A deposit of 200 against `c1bk`. -/
def c1pay1 : Payment :=
  { id := "p1", bookingId := "b1", amount := 200, paymentType := "deposit",
    paymentMethod := "cash", createdAt := 0 }

/-- A refund of 50 against `c1bk`. -/
def c1pay2 : Payment :=
  { id := "p2", bookingId := "b1", amount := 50, paymentType := "refund",
    paymentMethod := "cash", createdAt := 0 }

/-- The database of the C1 witness. -/
def c1db : DB := { bookings := [c1bk], payments := [c1pay1, c1pay2] }

/-- C1 witness: the theorem applied at the spec's own example (totalCost 1000,
one deposit of 200, one refund of 50). -/
theorem c1_booking_financials_witness :
    ∃ d, get_booking_details c1db "b1" = Except.ok d ∧
      d.financials.totalPaid =
        (((c1db.payments.filter fun p => p.bookingId == "b1").filter
          fun p => !(p.paymentType == "refund")).map Payment.amount).sum ∧
      d.financials.totalRefunded =
        (((c1db.payments.filter fun p => p.bookingId == "b1").filter
          fun p => p.paymentType == "refund").map Payment.amount).sum ∧
      d.financials.balanceDue =
        max 0 (1000 - d.financials.totalPaid + d.financials.totalRefunded) ∧
      (d.financials.paymentStatus = "paid" ↔ (d.financials.balanceDue ≤ 0 ∧ (1000 : ℚ) > 0)) ∧
      (¬ (d.financials.balanceDue ≤ 0 ∧ (1000 : ℚ) > 0) →
        d.financials.paymentStatus =
          if d.financials.totalPaid > 0 then "partial" else "unpaid") :=
  c1_booking_financials c1db "b1" c1bk 1000 (by decide) (by decide)

/-! ## C2: at most one conversion per chatbot lead -/

/-- The number of bookings referencing lead `l` via `convertedFromChatbot`. -/
def countChatbotRefs (bs : List Booking) (l : String) : Nat :=
  (bs.filter fun b => b.convertedFromChatbot == some l).length

/-- C2: when a booking already references the lead, a second conversion fails
with the duplicate-conversion (Conflict) error and leaves the state unchanged;
any single conversion call, even one cut short by a failure, preserves "at
most one booking references a given lead"; and form bookings never set
`convertedFromChatbot`. -/
theorem c2_conversion_unique (db : DB) (quoteId : String) (conv : ConversionData)
    (now : Int) (bookingId taskId : String) :
    ((db.contacts.find? (fun c => c.id == quoteId && c.source == some "chatbot")).isSome →
      (∃ b ∈ db.bookings, b.convertedFromChatbot = some quoteId) →
      convert_chatbot_to_booking db quoteId conv now bookingId taskId =
        (Except.error (ApiError.badRequest "This quote has already been converted to a booking"),
          db)) ∧
    (∀ (failAt : Option FailPoint) (l : String),
      countChatbotRefs db.bookings l ≤ 1 →
      countChatbotRefs (convertChatbotAux db quoteId conv now bookingId taskId failAt).2.bookings
        l ≤ 1) ∧
    (∀ (bd : ServiceBookingCreateData) (now2 : Int) (bid2 : String),
      (create_booking db bd now2 bid2).1.convertedFromChatbot = none) := by
  refine ⟨?_, ?_, fun bd now2 bid2 => rfl⟩
  · intro hq hex
    obtain ⟨q, hqe⟩ := Option.isSome_iff_exists.mp hq
    have hbe : (db.bookings.find? fun b => b.convertedFromChatbot == some quoteId).isSome := by
      rw [List.find?_isSome]
      obtain ⟨b, hmem, hb⟩ := hex
      exact ⟨b, hmem, by simp [hb]⟩
    obtain ⟨b', hbe'⟩ := Option.isSome_iff_exists.mp hbe
    unfold convert_chatbot_to_booking convertChatbotAux
    rw [hqe, hbe']
  · intro failAt l hle
    unfold convertChatbotAux
    cases hq : db.contacts.find? (fun c => c.id == quoteId && c.source == some "chatbot") with
    | none => exact hle
    | some q =>
      cases hb : db.bookings.find? (fun b => b.convertedFromChatbot == some quoteId) with
      | some b' => exact hle
      | none =>
        have hzero : l = quoteId →
            (db.bookings.filter fun b => b.convertedFromChatbot == some l) = [] := by
          intro heq
          subst heq
          rw [List.filter_eq_nil_iff]
          intro b hmem
          have := List.find?_eq_none.mp hb b hmem
          simpa using this
        have happ : ∀ (bk : Booking), bk.convertedFromChatbot = some quoteId →
            countChatbotRefs (db.bookings ++ [bk]) l ≤ 1 := by
          intro bk hbk
          unfold countChatbotRefs
          rw [List.filter_append]
          by_cases heq : l = quoteId
          · rw [hzero heq]
            have hlen := List.length_filter_le (fun b => b.convertedFromChatbot == some l) [bk]
            simpa using hlen
          · have : (([bk].filter fun b => b.convertedFromChatbot == some l)) = [] := by
              simp [hbk]
              intro hcontra
              exact heq hcontra.symm
            rw [this]
            simpa using hle
        dsimp only
        split_ifs with h1 h2 h3 <;>
          first
            | exact hle
            | exact happ _ rfl

/-- The already-converted chatbot lead of the C2 witness. -/
def c2contact : Contact :=
  { id := "q1", name := "Jane", email := "j@x.com", phone := "555", subject := "s",
    message := "m", status := "contacted", source := some "chatbot",
    sessionId := some "s1", createdAt := 0, updatedAt := 0 }

/-- The booking that already references lead `q1`. -/
def c2bk : Booking :=
  { id := "b0", name := "Jane", email := "j@x.com", phone := "555", serviceType := "moving",
    currentAddress := "x", preferredDate := DateVal.instant 0,
    convertedFromChatbot := some "q1", createdAt := 0, updatedAt := 0 }

/-- The database of the C2 witness. -/
def c2db : DB := { contacts := [c2contact], bookings := [c2bk] }

/-- A plain form booking for the C2 witness. -/
def c2bd : ServiceBookingCreateData :=
  { name := "N", email := "n@x.com", phone := "1", serviceType := "moving",
    currentAddress := "a", preferredDate := 0 }

/-- C2 witness: a second conversion of `q1` is refused with the Conflict error
and mutates nothing, the uniqueness bound is preserved, and a form booking
carries no chatbot reference. -/
theorem c2_conversion_unique_witness :
    convert_chatbot_to_booking c2db "q1" {} 0 "b1" "t1" =
      (Except.error (ApiError.badRequest "This quote has already been converted to a booking"),
        c2db) ∧
    countChatbotRefs (convertChatbotAux c2db "q1" {} 0 "b1" "t1" none).2.bookings "q1" ≤ 1 ∧
    (create_booking c2db c2bd 0 "nb").1.convertedFromChatbot = none := by
  have h := c2_conversion_unique c2db "q1" {} 0 "b1" "t1"
  exact ⟨h.1 (by decide) (by decide), h.2.1 none "q1" (by decide), h.2.2 c2bd 0 "nb"⟩

/-! ## C3: first-writer / last-writer discipline of the session aggregator -/

/-- A one-slot assignment only changes its slot when the old value is set. -/
theorem addressSlots_fst_some (fromA toA : Option String) (text : String)
    (lower : List Char) (v : String) (h : fromA = some v) :
    (addressSlots fromA toA text lower).1 = some v := by
  subst h
  unfold addressSlots
  split_ifs <;> simp_all

/-- The second address slot is likewise only filled when empty. -/
theorem addressSlots_snd_some (fromA toA : Option String) (text : String)
    (lower : List Char) (v : String) (h : toA = some v) :
    (addressSlots fromA toA text lower).2 = some v := by
  subst h
  unfold addressSlots
  split_ifs <;> simp_all

/-- The C3 counterexample session: two self-introductions in a row. -/
def c3msgs : List ChatMsg :=
  [{ id := "m1", sessionId := "s1", message := "My name is Alice", sender := "user",
     timestamp := 0 },
   { id := "m2", sessionId := "s1", message := "My name is Bob", sender := "user",
     timestamp := 1 }]

set_option maxRecDepth 10000

/-- C3 counterexample: a name extracted from an earlier message ("Alice") IS
overwritten by a later message's introduction ("Bob"), so the name field is
not first-writer-wins as claimed. -/
theorem c3_first_writer_counterexample :
    (get_session_contact_info (c3msgs.take 1) "s1").name = some "Alice" ∧
    (get_session_contact_info c3msgs "s1").name = some "Bob" ∧
    (some "Bob" : Option String) ≠ some "Alice" :=
  ⟨by decide, by decide, by decide⟩

/-- C3 (amended): over one step of the session fold, email and phone always
take the latest match; from/to addresses are set only when unset (first
writer wins); the introduction-prefix name, service interest, service type,
move date, property size and special items take the latest matching message
(last writer wins), and only the short-message name fallback is restricted to
an unset name. -/
theorem c3_session_fold_discipline (info : CollectedInfo) (text : String) :
    ((updateCollected info text).email = ((extract_contact_info text).email).or info.email) ∧
    ((updateCollected info text).phone = ((extract_contact_info text).phone).or info.phone) ∧
    (∀ v, info.from_address = some v → (updateCollected info text).from_address = some v) ∧
    (∀ v, info.to_address = some v → (updateCollected info text).to_address = some v) ∧
    (∀ n, nameFromIntro text = some n → (updateCollected info text).name = some n) ∧
    (nameFromIntro text = none → ∀ v, info.name = some v →
      (updateCollected info text).name = some v) ∧
    ((updateCollected info text).service_interest =
      (detectServiceInterest (lcLower text.toList)).or info.service_interest) ∧
    (residentialHit (lcLower text.toList) = true →
      (updateCollected info text).service_interest = some "moving" →
      (updateCollected info text).service_type = some "Residential Moving") ∧
    ((updateCollected info text).move_date =
      (extractDate (lcLower text.toList)).or info.move_date) ∧
    ((updateCollected info text).property_size =
      (extractPropertySize (lcLower text.toList)).or info.property_size) ∧
    ((updateCollected info text).special_items =
      (extractSpecialItems (lcLower text.toList)).or info.special_items) := by
  have hfrom : (updateCollected info text).from_address =
      (addressSlots info.from_address info.to_address text (lcLower text.toList)).1 := rfl
  have hto : (updateCollected info text).to_address =
      (addressSlots info.from_address info.to_address text (lcLower text.toList)).2 := rfl
  have hname : (updateCollected info text).name =
      ((nameFromIntro text).or info.name).or (nameFallback text) := rfl
  have hsi : (updateCollected info text).service_interest =
      (detectServiceInterest (lcLower text.toList)).or info.service_interest := rfl
  have hst : (updateCollected info text).service_type =
      serviceTypeStep (lcLower text.toList)
        ((detectServiceInterest (lcLower text.toList)).or info.service_interest)
        info.service_type := rfl
  refine ⟨rfl, rfl, ?_, ?_, ?_, ?_, hsi, ?_, rfl, rfl, rfl⟩
  · intro v hv
    rw [hfrom]
    exact addressSlots_fst_some _ _ _ _ v hv
  · intro v hv
    rw [hto]
    exact addressSlots_snd_some _ _ _ _ v hv
  · intro n hn
    rw [hname, hn]
    rfl
  · intro hn v hv
    rw [hname, hn, hv]
    rfl
  · intro hres hmoving
    rw [hsi] at hmoving
    rw [hst, hmoving]
    unfold serviceTypeStep
    have hres' : residentialHit (lcLower text.data) = true := hres
    simp [hres']

/-- A partially filled aggregate for the C3 witness. -/
def c3info : CollectedInfo :=
  { name := some "Alice", from_address := some "X", to_address := some "Y" }

/-- C3 witness: the amended discipline at concrete inputs — a contentless
message preserves the filled name and address slots, a later introduction
yields its own name, and a residential moving message sets the service
type. -/
theorem c3_session_fold_discipline_witness :
    (updateCollected c3info "???").from_address = some "X" ∧
    (updateCollected c3info "???").to_address = some "Y" ∧
    (updateCollected {} "my name is bob").name = some "Bob" ∧
    (updateCollected c3info "???").name = some "Alice" ∧
    (updateCollected {} "house move").service_type = some "Residential Moving" := by
  obtain ⟨-, -, hf, ht, -, hn, -, -, -, -, -⟩ := c3_session_fold_discipline c3info "???"
  obtain ⟨-, -, -, -, hb, -, -, -, -, -, -⟩ := c3_session_fold_discipline {} "my name is bob"
  obtain ⟨-, -, -, -, -, -, -, hs, -, -, -⟩ := c3_session_fold_discipline {} "house move"
  exact ⟨hf "X" rfl, ht "Y" rfl, hb "Bob" (by decide), hn (by decide) "Alice" rfl,
    hs (by decide) (by decide)⟩

/-! ## C4: the conversion's three writes are not transactional -/

/-- A member of an `updateFirst` result is an old member or the image of
one. -/
theorem updateFirst_mem {α : Type} (p : α → Bool) (f : α → α) (l : List α) (x : α)
    (hx : x ∈ updateFirst p f l) : x ∈ l ∨ ∃ y ∈ l, x = f y := by
  induction l with
  | nil => exact absurd hx (by simp [updateFirst])
  | cons a as ih =>
    unfold updateFirst at hx
    by_cases hpa : p a
    · rw [if_pos hpa] at hx
      rcases List.mem_cons.mp hx with h | h
      · exact Or.inr ⟨a, List.mem_cons_self a as, h⟩
      · exact Or.inl (List.mem_cons_of_mem _ h)
    · rw [if_neg hpa] at hx
      rcases List.mem_cons.mp hx with h | h
      · exact Or.inl (h ▸ List.mem_cons_self a as)
      · rcases ih h with h' | ⟨y, hy, hxy⟩
        · exact Or.inl (List.mem_cons_of_mem _ h')
        · exact Or.inr ⟨y, List.mem_cons_of_mem _ hy, hxy⟩

/-- The chatbot lead of the C4 counterexample. -/
def c4contact : Contact :=
  { id := "q1", name := "Jane", email := "j@x.com", phone := "555", subject := "s",
    message := "m", status := "new", source := some "chatbot", sessionId := some "s1",
    createdAt := 0, updatedAt := 0 }

/-- The C4 counterexample database: one unconverted chatbot lead. -/
def c4db : DB := { contacts := [c4contact] }

/-- The state left behind when the lead-update write fails right after the
booking insert succeeded. -/
def c4result : DB := (convertChatbotAux c4db "q1" {} 0 "b1" "t1" (some FailPoint.leadUpdate)).2

/-- C4 counterexample: a failure between the booking insert and the lead
update leaves a Booking referencing the lead while the lead is neither marked
contacted nor pointing at the booking — the conversion's effects are not
atomic as a unit. -/
theorem c4_atomicity_counterexample :
    (∃ b ∈ c4result.bookings, b.convertedFromChatbot = some "q1") ∧
    (∀ c ∈ c4result.contacts, c.id = "q1" →
      c.status ≠ "contacted" ∧ c.convertedToBooking = none) ∧
    c4result.tasks = [] :=
  ⟨by decide, by decide, by decide⟩

/-- The one-directional consistency the write order does give: every lead
marked with a `convertedToBooking` reference points at an existing booking. -/
def LeadMarksConsistent (db : DB) : Prop :=
  ∀ c ∈ db.contacts, ∀ b, c.convertedToBooking = some b → ∃ bk ∈ db.bookings, bk.id = b

/-- Appending bookings preserves the mark-consistency targets. -/
theorem leadMarks_weaken (contacts : List Contact) (bookings bks : List Booking)
    (h : ∀ c ∈ contacts, ∀ b, c.convertedToBooking = some b → ∃ bk ∈ bookings, bk.id = b) :
    ∀ c ∈ contacts, ∀ b, c.convertedToBooking = some b →
      ∃ bk ∈ bookings ++ bks, bk.id = b := by
  intro c hc b hcb
  obtain ⟨bk, hbk, hbkid⟩ := h c hc b hcb
  exact ⟨bk, List.mem_append_left _ hbk, hbkid⟩

/-- Marking the first matching lead keeps consistency when a booking with the
referenced id is appended at the same time. -/
theorem leadMarks_update (contacts : List Contact) (bookings : List Booking)
    (quoteId bookingId : String) (now : Int) (bk : Booking) (hbk : bk.id = bookingId)
    (h : ∀ c ∈ contacts, ∀ b, c.convertedToBooking = some b → ∃ bk' ∈ bookings, bk'.id = b) :
    ∀ c ∈ updateFirst (fun c => c.id == quoteId)
        (fun c => { c with
          status := "contacted"
          convertedToBooking := some bookingId
          updatedAt := now }) contacts,
      ∀ b, c.convertedToBooking = some b → ∃ bk' ∈ bookings ++ [bk], bk'.id = b := by
  intro c hc b hcb
  rcases updateFirst_mem _ _ _ _ hc with hcmem | ⟨y, hy, hcy⟩
  · obtain ⟨bk', hbk', hbkid'⟩ := h c hcmem b hcb
    exact ⟨bk', List.mem_append_left _ hbk', hbkid'⟩
  · subst hcy
    have hbid : b = bookingId := by
      simpa using hcb.symm
    subst hbid
    exact ⟨bk, List.mem_append_right _ (List.mem_singleton_self _), hbk⟩

/-- C4 (amended): the conversion performs its writes in the order booking
insert, lead update, task insert, without a transaction. A completed
conversion produces all three effects; any partial failure still preserves
"no lead is marked converted without its booking existing" (because the
booking is written first); but the converse direction fails — a failure after
the booking insert leaves a Booking whose lead is not marked (the
counterexample). -/
theorem c4_conversion_effects (db : DB) (quoteId : String) (conv : ConversionData)
    (now : Int) (bookingId taskId : String) (failAt : Option FailPoint)
    (hinv : LeadMarksConsistent db) :
    LeadMarksConsistent (convertChatbotAux db quoteId conv now bookingId taskId failAt).2 ∧
    (failAt = none → ∀ q,
      db.contacts.find? (fun c => c.id == quoteId && c.source == some "chatbot") = some q →
      db.bookings.find? (fun b => b.convertedFromChatbot == some quoteId) = none →
      (∃ r, (convertChatbotAux db quoteId conv now bookingId taskId failAt).1 =
        Except.ok r) ∧
      (∃ bk, (convertChatbotAux db quoteId conv now bookingId taskId failAt).2.bookings =
          db.bookings ++ [bk] ∧ bk.id = bookingId ∧ bk.convertedFromChatbot = some quoteId) ∧
      (convertChatbotAux db quoteId conv now bookingId taskId failAt).2.contacts =
        updateFirst (fun c => c.id == quoteId)
          (fun c => { c with
            status := "contacted"
            convertedToBooking := some bookingId
            updatedAt := now }) db.contacts ∧
      (∃ t, (convertChatbotAux db quoteId conv now bookingId taskId failAt).2.tasks =
          db.tasks ++ [t] ∧ t.bookingId = some bookingId ∧ t.contactId = some quoteId ∧
          t.taskType = "follow_up" ∧ t.priority = "high" ∧ t.autoGenerated = true ∧
          t.dueDate = some (addDays now 1))) := by
  constructor
  · unfold convertChatbotAux
    cases hq : db.contacts.find? (fun c => c.id == quoteId && c.source == some "chatbot") with
    | none => exact hinv
    | some q =>
      cases hb : db.bookings.find? (fun b => b.convertedFromChatbot == some quoteId) with
      | some b' => exact hinv
      | none =>
        dsimp only
        split_ifs
        all_goals
          first
            | exact hinv
            | exact fun c hc b hcb => leadMarks_weaken db.contacts db.bookings _ hinv c hc b hcb
            | exact fun c hc b hcb =>
                leadMarks_update db.contacts db.bookings quoteId bookingId now _ rfl hinv c hc b hcb
  · intro hfa q hq hb
    subst hfa
    have hne1 : (none : Option FailPoint) ≠ some FailPoint.bookingInsert := by simp
    have hne2 : (none : Option FailPoint) ≠ some FailPoint.leadUpdate := by simp
    have hne3 : (none : Option FailPoint) ≠ some FailPoint.taskInsert := by simp
    unfold convertChatbotAux
    rw [hq, hb]
    dsimp only
    simp only [if_neg hne1, if_neg hne2, if_neg hne3]
    exact ⟨⟨_, rfl⟩, ⟨_, rfl, rfl, rfl⟩, trivial, ⟨_, rfl, rfl, rfl, rfl, rfl, rfl, rfl⟩⟩

/-- C4 witness: the amended theorem at the counterexample database, with a
successful (no-failure) run: all three effects are present and the
one-directional consistency is preserved. -/
theorem c4_conversion_effects_witness :
    LeadMarksConsistent (convertChatbotAux c4db "q1" {} 0 "b1" "t1" none).2 ∧
    (∃ bk, (convertChatbotAux c4db "q1" {} 0 "b1" "t1" none).2.bookings =
      c4db.bookings ++ [bk] ∧ bk.id = "b1" ∧ bk.convertedFromChatbot = some "q1") := by
  have hinv : LeadMarksConsistent c4db := by
    intro c hc b hcb
    have hc' : c = c4contact := by
      simpa [c4db] using hc
    subst hc'
    exact absurd hcb (by simp [c4contact])
  obtain ⟨h1, h2⟩ := c4_conversion_effects c4db "q1" {} 0 "b1" "t1" none hinv
  obtain ⟨-, hbk, -, -⟩ := h2 rfl c4contact (by decide) (by decide)
  exact ⟨h1, hbk⟩

/-! ## C5: negative payment amounts are not rejected -/

/-- The booking the C5 runs log payments against. -/
def c5bk : Booking :=
  { id := "b1", name := "A", email := "a@b.com", phone := "1", serviceType := "moving",
    currentAddress := "x", preferredDate := DateVal.instant 0, createdAt := 0, updatedAt := 0 }

/-- The C5 database. -/
def c5db : DB := { bookings := [c5bk] }

/-- A payment-creation request with a negative amount. -/
def c5pd : PaymentCreateData :=
  { bookingId := "b1", amount := -5, paymentType := PaymentType.partPay,
    paymentMethod := PaymentMethod.cash }

/-- C5 counterexample: a negative-amount request against an existing booking
is not rejected — the operation reports success and appends the Payment, so
no ValidationError is raised and a mutation is performed. -/
theorem c5_negative_amount_counterexample :
    (create_payment c5db c5pd 0 "p1" "t1").1 = Except.ok "p1" ∧
    (create_payment c5db c5pd 0 "p1" "t1").2.payments =
      [{ id := "p1", bookingId := "b1", amount := -5, paymentType := "partial",
         paymentMethod := "cash", notes := none, createdAt := 0 }] :=
  ⟨rfl, by decide⟩

/-- C5 (amended): `create_payment` performs no validation of the amount: for
an existing booking the request succeeds and the Payment is appended with the
given amount, whatever its sign; the only error the operation itself reports
is NotFound for a missing booking, in which case nothing is mutated. -/
theorem c5_no_amount_validation (db : DB) (pd : PaymentCreateData) (now : Int)
    (paymentId taskId : String) :
    ((db.bookings.find? (fun b => b.id == pd.bookingId)).isSome →
      (create_payment db pd now paymentId taskId).1 = Except.ok paymentId ∧
      ∃ p, (create_payment db pd now paymentId taskId).2.payments = db.payments ++ [p] ∧
        p.amount = pd.amount ∧ p.bookingId = pd.bookingId) ∧
    ((db.bookings.find? (fun b => b.id == pd.bookingId)) = none →
      create_payment db pd now paymentId taskId =
        (Except.error (ApiError.notFound "Booking not found"), db)) := by
  constructor
  · intro hb
    obtain ⟨b, hbe⟩ := Option.isSome_iff_exists.mp hb
    unfold create_payment
    rw [hbe]
    dsimp only
    split_ifs <;> exact ⟨rfl, ⟨_, rfl, rfl, rfl⟩⟩
  · intro hb
    unfold create_payment
    rw [hb]

/-- C5 witness: the amended theorem at the counterexample's negative-amount
request and at a missing booking id. -/
theorem c5_no_amount_validation_witness :
    ((create_payment c5db c5pd 0 "p1" "t1").1 = Except.ok "p1" ∧
      ∃ p, (create_payment c5db c5pd 0 "p1" "t1").2.payments = c5db.payments ++ [p] ∧
        p.amount = c5pd.amount ∧ p.bookingId = c5pd.bookingId) ∧
    create_payment c5db { c5pd with bookingId := "nope" } 0 "p1" "t1" =
      (Except.error (ApiError.notFound "Booking not found"), c5db) := by
  refine ⟨(c5_no_amount_validation c5db c5pd 0 "p1" "t1").1 (by decide), ?_⟩
  exact (c5_no_amount_validation c5db { c5pd with bookingId := "nope" } 0 "p1" "t1").2 (by decide)

/-! ## C6: transition timestamps -/

/-- The fields of a task a status transition must not touch. -/
def TaskFrameEq (t t' : Task) : Prop :=
  t'.id = t.id ∧ t'.bookingId = t.bookingId ∧ t'.contactId = t.contactId ∧
  t'.title = t.title ∧ t'.description = t.description ∧ t'.taskType = t.taskType ∧
  t'.priority = t.priority ∧ t'.dueDate = t.dueDate ∧ t'.assignedTo = t.assignedTo ∧
  t'.autoGenerated = t.autoGenerated ∧ t'.contactName = t.contactName ∧
  t'.contactEmail = t.contactEmail ∧ t'.serviceType = t.serviceType ∧
  t'.serviceContext = t.serviceContext ∧ t'.createdAt = t.createdAt

/-- C6: a validated transition updates exactly the status and the two
lifecycle timestamps (frame); pending→completed sets `completedAt = now` and
leaves `startedAt` untouched (null stays null); in_progress→completed
preserves the previously set `startedAt`; entering pending clears both. -/
theorem c6_transition_timestamps (db : DB) (taskId target : String) (now : Int) (t : Task)
    (ht : db.tasks.find? (fun x => x.id == taskId) = some t) :
    ((validTransitions t.status).contains target = true →
      transition_task_status db taskId target now =
        (Except.ok (t.status, target),
         { db with tasks := updateFirst (fun x => x.id == taskId) (applyTransition target now) db.tasks }) ∧
      (applyTransition target now t).status = target ∧
      TaskFrameEq t (applyTransition target now t)) ∧
    (t.status = "pending" → target = "completed" →
      (applyTransition target now t).completedAt = some now ∧
      (applyTransition target now t).startedAt = t.startedAt ∧
      (t.startedAt = none → (applyTransition target now t).startedAt = none)) ∧
    (t.status = "in_progress" → target = "completed" →
      (applyTransition target now t).completedAt = some now ∧
      (applyTransition target now t).startedAt = t.startedAt) ∧
    (target = "pending" →
      (applyTransition target now t).startedAt = none ∧
      (applyTransition target now t).completedAt = none) ∧
    ((validTransitions t.status).contains target = false →
      transition_task_status db taskId target now =
        (Except.error (ApiError.badRequest ("Invalid transition from '" ++ t.status ++
          "' to '" ++ target ++ "'")), db)) := by
  refine ⟨?_, ?_, ?_, ?_, ?_⟩
  · intro hvalid
    refine ⟨?_, ?_, ?_⟩
    · unfold transition_task_status
      rw [ht]
      dsimp only
      rw [if_pos hvalid]
    · unfold applyTransition
      rfl
    · unfold TaskFrameEq applyTransition
      refine ⟨rfl, rfl, rfl, rfl, rfl, rfl, rfl, rfl, rfl, rfl, rfl, rfl, rfl, rfl, rfl⟩
  · intro hcur htar
    subst htar
    unfold applyTransition
    refine ⟨by simp, by simp, fun h => by simp [h]⟩
  · intro hcur htar
    subst htar
    unfold applyTransition
    exact ⟨by simp, by simp⟩
  · intro htar
    subst htar
    unfold applyTransition
    exact ⟨by simp, by simp⟩
  · intro hinvalid
    unfold transition_task_status
    rw [ht]
    dsimp only
    have hne : ¬ ((validTransitions t.status).contains target = true) := by
      rw [hinvalid]
      exact Bool.false_ne_true
    rw [if_neg hne]

/-- A pending task with both timestamps unset. -/
def c6task : Task :=
  { id := "t1", title := "T", taskType := "follow_up", status := "pending", createdAt := 0 }

/-- An in-progress task with `startedAt` set. -/
def c6task2 : Task :=
  { id := "t2", title := "U", taskType := "follow_up", status := "in_progress",
    startedAt := some 5, createdAt := 0 }

/-- The C6 database. -/
def c6db : DB := { tasks := [c6task, c6task2] }

/-- C6 witness: pending→completed on a fresh task sets `completedAt` and
leaves `startedAt` null; in_progress→completed keeps `startedAt = some 5`;
in_progress→pending clears both; and completed→in_progress is refused. -/
theorem c6_transition_timestamps_witness :
    ((applyTransition "completed" 9 c6task).completedAt = some 9 ∧
      (applyTransition "completed" 9 c6task).startedAt = none) ∧
    ((applyTransition "completed" 9 c6task2).startedAt = c6task2.startedAt) ∧
    ((applyTransition "pending" 9 c6task2).startedAt = none ∧
      (applyTransition "pending" 9 c6task2).completedAt = none) ∧
    transition_task_status c6db "t1" "completed" 9 =
      (Except.ok ("pending", "completed"),
       { c6db with tasks := updateFirst (fun x => x.id == "t1") (applyTransition "completed" 9) c6db.tasks }) := by
  obtain ⟨h1, h2, h3, h4, h5⟩ := c6_transition_timestamps c6db "t1" "completed" 9 c6task (by decide)
  obtain ⟨g1, g2, g3, g4, g5⟩ := c6_transition_timestamps c6db "t2" "completed" 9 c6task2 (by decide)
  obtain ⟨k1, k2, k3, k4, k5⟩ := c6_transition_timestamps c6db "t2" "pending" 9 c6task2 (by decide)
  obtain ⟨p1, p2, p3⟩ := h2 (by decide) (by decide)
  obtain ⟨q1, q2⟩ := g3 (by decide) (by decide)
  obtain ⟨r1, r2⟩ := k4 (by decide)
  exact ⟨⟨p1, p3 (by decide)⟩, q2, ⟨r1, r2⟩, (h1 (by decide)).1⟩

/-! ## C7: deposits auto-create a collect-payment task -/

/-- C7: recording a deposit against an existing booking appends the payment
and exactly one auto-generated collect-payment task of medium priority due
3 days after creation; a non-deposit payment creates no task. -/
theorem c7_deposit_task (db : DB) (pd : PaymentCreateData) (now : Int)
    (paymentId taskId : String)
    (hb : (db.bookings.find? (fun b => b.id == pd.bookingId)).isSome) :
    (pd.paymentType = PaymentType.deposit →
      ∃ p, (create_payment db pd now paymentId taskId).2.payments = db.payments ++ [p] ∧
        p.amount = pd.amount ∧
      ∃ t, (create_payment db pd now paymentId taskId).2.tasks = db.tasks ++ [t] ∧
        t.taskType = "collect_payment" ∧ t.priority = "medium" ∧ t.autoGenerated = true ∧
        t.dueDate = some (addDays now 3) ∧ t.bookingId = some pd.bookingId) ∧
    (pd.paymentType ≠ PaymentType.deposit →
      (create_payment db pd now paymentId taskId).2.tasks = db.tasks ∧
      ∃ p, (create_payment db pd now paymentId taskId).2.payments = db.payments ++ [p] ∧
        p.amount = pd.amount) := by
  obtain ⟨b, hbe⟩ := Option.isSome_iff_exists.mp hb
  constructor
  · intro hdep
    unfold create_payment
    rw [hbe]
    dsimp only
    rw [if_pos hdep]
    exact ⟨_, rfl, rfl, _, rfl, rfl, rfl, rfl, rfl, rfl⟩
  · intro hdep
    unfold create_payment
    rw [hbe]
    dsimp only
    rw [if_neg hdep]
    exact ⟨rfl, _, rfl, rfl⟩

/-- A deposit request for the C7 witness. -/
def c7pd : PaymentCreateData :=
  { bookingId := "b1", amount := 200, paymentType := PaymentType.deposit,
    paymentMethod := PaymentMethod.cash }

/-- C7 witness: a deposit of 200 on `c5db`'s booking appends the payment and
exactly one collect-payment task due three days out; a partial payment adds
none. -/
theorem c7_deposit_task_witness :
    (∃ p, (create_payment c5db c7pd 0 "p1" "t1").2.payments = c5db.payments ++ [p] ∧
      p.amount = c7pd.amount ∧
    ∃ t, (create_payment c5db c7pd 0 "p1" "t1").2.tasks = c5db.tasks ++ [t] ∧
      t.taskType = "collect_payment" ∧ t.priority = "medium" ∧ t.autoGenerated = true ∧
      t.dueDate = some (addDays 0 3) ∧ t.bookingId = some c7pd.bookingId) ∧
    (create_payment c5db c5pd 0 "p1" "t1").2.tasks = c5db.tasks := by
  refine ⟨(c7_deposit_task c5db c7pd 0 "p1" "t1" (by decide)).1 rfl, ?_⟩
  exact ((c7_deposit_task c5db c5pd 0 "p1" "t1" (by decide)).2 (by decide)).1

/-! ## C8: LLM failures degrade to the deterministic fallback -/

/-- C8: when the API key is missing or the completion call fails, the chat
operation still returns the deterministic fallback bot message carrying the
callback phone number, stores that message in the session's message log, and
mutates neither leads nor sessions — the failure never surfaces as an error
(the handler's return type carries no error case at all). -/
theorem c8_llm_fallback (db : DB) (sessionId message : String) (apiKey : Option String)
    (llm : Except Unit String) (now : Int) (userMsgId botMsgId newContactId : String)
    (h : apiKey = none ∨ llm = Except.error ()) :
    (send_chat_message db sessionId message apiKey llm now userMsgId botMsgId
      newContactId).1 =
      { id := botMsgId, sessionId := sessionId, message := fallbackText, sender := "bot",
        timestamp := now } ∧
    containsStr fallbackText "(812) 669-4165" = true ∧
    (send_chat_message db sessionId message apiKey llm now userMsgId botMsgId
      newContactId).1 ∈
      (send_chat_message db sessionId message apiKey llm now userMsgId botMsgId
        newContactId).2.chat_messages ∧
    (send_chat_message db sessionId message apiKey llm now userMsgId botMsgId
      newContactId).2.contacts = db.contacts ∧
    (send_chat_message db sessionId message apiKey llm now userMsgId botMsgId
      newContactId).2.chat_sessions = db.chat_sessions := by
  cases apiKey with
  | none =>
    refine ⟨rfl, by decide, ?_, rfl, rfl⟩
    exact List.mem_append_right _ (List.mem_singleton_self _)
  | some k =>
    have hllm : llm = Except.error () := by
      rcases h with h1 | h2
      · exact absurd h1 (by simp)
      · exact h2
    subst hllm
    refine ⟨rfl, by decide, ?_, rfl, rfl⟩
    exact List.mem_append_right _ (List.mem_singleton_self _)

/-- C8 witness: a failing completion call on an empty store yields the
fallback message, stored, with leads and sessions untouched. -/
theorem c8_llm_fallback_witness :
    (send_chat_message {} "s1" "hello" (some "k") (Except.error ()) 0 "u1" "b1" "c1").1 =
      { id := "b1", sessionId := "s1", message := fallbackText, sender := "bot",
        timestamp := 0 } ∧
    containsStr fallbackText "(812) 669-4165" = true ∧
    (send_chat_message {} "s1" "hello" (some "k") (Except.error ()) 0 "u1" "b1" "c1").1 ∈
      (send_chat_message {} "s1" "hello" (some "k") (Except.error ()) 0 "u1" "b1"
        "c1").2.chat_messages ∧
    (send_chat_message {} "s1" "hello" (some "k") (Except.error ()) 0 "u1" "b1"
      "c1").2.contacts = DB.contacts {} ∧
    (send_chat_message {} "s1" "hello" (some "k") (Except.error ()) 0 "u1" "b1"
      "c1").2.chat_sessions = DB.chat_sessions {} :=
  c8_llm_fallback {} "s1" "hello" (some "k") (Except.error ()) 0 "u1" "b1" "c1"
    (Or.inr rfl)

/-! ## C9: the generic task update skips transition validation -/

/-- C9: `update_task` applies any requested status without consulting the
task's current status — it never raises the invalid-transition error, so
e.g. completed→in_progress succeeds — while applying the same timestamp side
effects keyed only on the target status. -/
theorem c9_update_task_unconditional (db : DB) (taskId : String) (upd : TaskUpdateData)
    (target : TaskStatus) (now : Int) (t : Task)
    (ht : db.tasks.find? (fun x => x.id == taskId) = some t)
    (hs : upd.status = some target) :
    (update_task db taskId upd now).1 = Except.ok (some target.val) ∧
    (update_task db taskId upd now).2.tasks =
      updateFirst (fun x => x.id == taskId) (applyTaskUpdate upd now) db.tasks ∧
    (applyTaskUpdate upd now t).status = target.val ∧
    (applyTaskUpdate upd now t).startedAt =
      (match target with
        | TaskStatus.inProgress => some now
        | TaskStatus.pending => none
        | _ => t.startedAt) ∧
    (applyTaskUpdate upd now t).completedAt =
      (match target with
        | TaskStatus.completed => some now
        | TaskStatus.pending => none
        | _ => t.completedAt) := by
  have hfield : (upd.title.isSome || upd.description.isSome || upd.priority.isSome ||
      upd.status.isSome || upd.dueDate.isSome) = true := by
    simp [hs]
  have hsome : (db.tasks.find? (fun x => x.id == taskId)).isSome = true := by
    rw [ht]
    rfl
  refine ⟨?_, ?_, ?_, ?_, ?_⟩
  · unfold update_task
    rw [hs]
    simp [hsome]
  · unfold update_task
    rw [hs]
    simp [hsome]
  · unfold applyTaskUpdate
    simp only [hs]
  · unfold applyTaskUpdate
    simp only [hs]
    cases target <;> rfl
  · unfold applyTaskUpdate
    simp only [hs]
    cases target <;> rfl

/-- A completed task (with a stale `completedAt`) for the C9 witness. -/
def c9task : Task :=
  { id := "t1", title := "T", taskType := "follow_up", status := "completed",
    completedAt := some 7, createdAt := 0 }

/-- The C9 database. -/
def c9db : DB := { tasks := [c9task] }

/-- The generic update requesting in_progress. -/
def c9upd : TaskUpdateData := { status := some TaskStatus.inProgress }

/-- C9 witness: completed→in_progress through the generic update succeeds
(no invalid-transition error), sets `startedAt = now` and leaves the stale
`completedAt` untouched. -/
theorem c9_update_task_unconditional_witness :
    (update_task c9db "t1" c9upd 9).1 = Except.ok (some "in_progress") ∧
    (applyTaskUpdate c9upd 9 c9task).status = "in_progress" ∧
    (applyTaskUpdate c9upd 9 c9task).startedAt = some 9 ∧
    (applyTaskUpdate c9upd 9 c9task).completedAt = some 7 := by
  obtain ⟨h1, h2, h3, h4, h5⟩ :=
    c9_update_task_unconditional c9db "t1" c9upd TaskStatus.inProgress 9 c9task
      (by decide) rfl
  exact ⟨h1, h3, h4, h5⟩

/-! ## C10: chatbot leads are upserted only when contact data was extracted -/

/-- The session upsert never touches the contacts collection. -/
theorem upsertSession_contacts (db : DB) (sessionId : String) (info : CollectedInfo)
    (now : Int) : (upsertSession db sessionId info now).contacts = db.contacts := by
  unfold upsertSession
  split_ifs <;> rfl

/-- C10: on a successful chat round trip, the contacts store is touched only
when the collected info has a name, email or phone; a round trip extracting
none of these leaves contacts unchanged; when a lead is created, the
still-missing contact fields get the fixed placeholders (name
`Chat User - <last 8 of session id>`, email `pending@chat.com`, phone
`Pending`); when a chatbot lead for the session already exists it is updated
in place, not duplicated. -/
theorem c10_chat_lead_upsert (db : DB) (sessionId message key reply : String)
    (now : Int) (userMsgId botMsgId newContactId : String) (info : CollectedInfo)
    (hinfo : info = chatCollectedInfo
      { db with chat_messages := db.chat_messages ++
        [{ id := userMsgId, sessionId := sessionId, message := message,
           sender := "user", timestamp := now }] } sessionId message) :
    (info.name = none → info.email = none → info.phone = none →
      (send_chat_message db sessionId message (some key) (Except.ok reply) now
        userMsgId botMsgId newContactId).2.contacts = db.contacts) ∧
    ((info.name.isSome || info.email.isSome || info.phone.isSome) = true →
      (db.contacts.find? (fun c =>
        c.sessionId == some sessionId && c.source == some "chatbot")) = none →
      ∃ c, (send_chat_message db sessionId message (some key) (Except.ok reply) now
          userMsgId botMsgId newContactId).2.contacts = db.contacts ++ [c] ∧
        c.name = info.name.getD ("Chat User - " ++ String.mk (lastN 8 sessionId.toList)) ∧
        c.email = info.email.getD "pending@chat.com" ∧
        c.phone = info.phone.getD "Pending" ∧
        c.source = some "chatbot" ∧ c.sessionId = some sessionId ∧
        (info.name = none →
          c.name = "Chat User - " ++ String.mk (lastN 8 sessionId.toList)) ∧
        (info.email = none → c.email = "pending@chat.com") ∧
        (info.phone = none → c.phone = "Pending")) ∧
    ((info.name.isSome || info.email.isSome || info.phone.isSome) = true →
      (db.contacts.find? (fun c =>
        c.sessionId == some sessionId && c.source == some "chatbot")).isSome →
      (send_chat_message db sessionId message (some key) (Except.ok reply) now
        userMsgId botMsgId newContactId).2.contacts =
        updateFirst (fun c => c.sessionId == some sessionId && c.source == some "chatbot")
          (chatContactFields sessionId info now) db.contacts) := by
  refine ⟨?_, ?_, ?_⟩
  · intro hn he hp
    unfold send_chat_message
    dsimp only
    rw [← hinfo, hn, he, hp]
    dsimp only [Option.isSome_none, Bool.or_self, Bool.false_eq_true, if_false]
    exact upsertSession_contacts _ _ _ _
  · intro hsome hnone
    unfold send_chat_message
    dsimp only
    rw [← hinfo, if_pos hsome]
    unfold upsertChatContact
    rw [upsertSession_contacts]
    dsimp only
    rw [hnone]
    simp only [Option.isSome_none, Bool.false_eq_true, if_false]
    refine ⟨_, rfl, rfl, rfl, rfl, rfl, rfl, ?_, ?_, ?_⟩ <;>
      intro h <;>
      unfold newChatContact chatContactFields <;>
      rw [h] <;>
      rfl
  · intro hsome hex
    unfold send_chat_message
    dsimp only
    rw [← hinfo, if_pos hsome]
    unfold upsertChatContact
    rw [upsertSession_contacts]
    dsimp only
    rw [if_pos hex]

/-- C10 witness part input: a message carrying no name, email or phone. -/
def c10infoNone : CollectedInfo :=
  chatCollectedInfo
    { chat_messages := [{ id := "u1", sessionId := "s1", message := "!!!",
                          sender := "user", timestamp := 0 }] } "s1" "!!!"

/-- C10 witness part input: a message carrying an email address. -/
def c10infoMail : CollectedInfo :=
  chatCollectedInfo
    { chat_messages := [{ id := "u1", sessionId := "sess-abcdef123456",
                          message := "my email is a@b.com", sender := "user",
                          timestamp := 0 }] }
    "sess-abcdef123456" "my email is a@b.com"

/-- C10 witness: a contentless exchange leaves contacts unchanged; an
email-bearing exchange on a fresh session creates exactly one lead whose
missing name and phone carry the fixed placeholders. -/
theorem c10_chat_lead_upsert_witness :
    (send_chat_message {} "s1" "!!!" (some "k") (Except.ok "r") 0 "u1" "b1"
      "c1").2.contacts = DB.contacts {} ∧
    ∃ c, (send_chat_message {} "sess-abcdef123456" "my email is a@b.com" (some "k")
        (Except.ok "r") 0 "u1" "b1" "c1").2.contacts = DB.contacts {} ++ [c] ∧
      c.name = c10infoMail.name.getD
        ("Chat User - " ++ String.mk (lastN 8 "sess-abcdef123456".toList)) ∧
      c.email = c10infoMail.email.getD "pending@chat.com" ∧
      c.phone = c10infoMail.phone.getD "Pending" ∧
      c.source = some "chatbot" ∧ c.sessionId = some "sess-abcdef123456" ∧
      (c10infoMail.name = none →
        c.name = "Chat User - " ++ String.mk (lastN 8 "sess-abcdef123456".toList)) ∧
      (c10infoMail.email = none → c.email = "pending@chat.com") ∧
      (c10infoMail.phone = none → c.phone = "Pending") := by
  obtain ⟨hA, -, -⟩ := c10_chat_lead_upsert {} "s1" "!!!" "k" "r" 0 "u1" "b1" "c1"
    c10infoNone rfl
  obtain ⟨-, hB, -⟩ := c10_chat_lead_upsert {} "sess-abcdef123456" "my email is a@b.com"
    "k" "r" 0 "u1" "b1" "c1" c10infoMail rfl
  exact ⟨hA (by decide) (by decide) (by decide), hB (by decide) rfl⟩

end SwiftMove
